import Mathlib

/-
  Verification development for the terminal-rpg combat core.

  Shallow embedding of the combat subsystem:
  - dice and modifier primitives        (src/terminal_rpg/engines/utils.py)
  - XP / level table                    (src/terminal_rpg/engines/xp_utils.py)
  - equipment hand-slot legality        (src/terminal_rpg/storage/repositories/player.py)
  - attack execution tools              (src/terminal_rpg/llm/combat/tools/attack_tools.py)
  - initiative / turn-order assignment  (src/terminal_rpg/llm/game/tools/initiate_combat_tools.py)
  - the combat loop's turn-index persistence trace (src/terminal_rpg/engines/combat.py)

  Randomness (random.randint outcomes) is made explicit: each function that
  rolls dice takes the concrete outcomes as parameters (a single d20 value,
  or a stream `rolls : Nat → Nat` indexed by how many dice the function has
  consumed so far), and the contract of randint(1, k) becomes the hypothesis
  that each consumed outcome lies in [1, k].

  Database rows become Lean structures; the participant list of a battle is
  carried as a Lean list in the order the repository returns it; repository
  UPDATE calls become pure functions from state to state.
-/

namespace TerminalRpg

/-- Python str.lower for the ASCII names the game uses: character-wise
lowercasing. (`String.toLower` in core is the same map but does not reduce
well under kernel evaluation, so the character-wise form is used.) -/
def pyLower (s : String) : String := ⟨s.data.map Char.toLower⟩

/-! ## Enumerations (storage/models.py, merged with the members the engines
and campaign presets reference: models.py in the snapshot is stale and lacks
the light/medium/heavy armor members used by engines/utils.py and the preset
files, as well as the battle-participant model used by the repositories). -/

inductive Rarity where
  | common | rare | legendary
deriving DecidableEq, Repr

inductive WeaponType where
  | melee | ranged
deriving DecidableEq, Repr

inductive HandsRequired where
  | one_handed | two_handed
deriving DecidableEq, Repr

inductive ArmorType where
  | light | medium | heavy | shield | helmet | chestplate | boots | leggings
deriving DecidableEq, Repr

inductive Disposition where
  | hostile | ally
deriving DecidableEq, Repr

/-! ## Entity structures, following the fields the repository row
converters construct (storage/repositories/player.py `row_to_weapon`,
`row_to_armor`, npc.py, battle.py, battle_participant.py). -/

structure Weapon where
  id : Nat
  name : String
  type : WeaponType
  hands_required : HandsRequired
  damage_dice_count : Nat
  damage_dice_sides : String
deriving DecidableEq, Repr

structure Armor where
  id : Nat
  name : String
  type : ArmorType
  ac : Int
deriving DecidableEq, Repr

structure Playerm where
  id : Nat
  name : String
  hp : Int
  max_hp : Int
  xp : Int
  gold : Int
  level : Nat
  strength : Int
  dexterity : Int
  constitution : Int
  intelligence : Int
  wisdom : Int
  charisma : Int
deriving DecidableEq, Repr

structure NPCm where
  id : Nat
  name : String
  hp : Int
  max_hp : Int
  ac : Int
  disposition : Disposition
  attack_mod : Int
  initiative_mod : Int
  damage_dice_count : Nat
  damage_dice_sides : String
  xp : Int
  gold : Int
deriving DecidableEq, Repr

structure Participant where
  battle_id : Nat
  npc_id : Option Nat
  player_id : Option Nat
  turn_order : Option Nat
  is_active : Bool
  initiative_roll : Option Int
deriving DecidableEq, Repr

/-! ## Dice and modifier primitives (engines/utils.py). -/

/-- engines/utils.py `calculate_ability_modifier`:
`(ability_score - 10) // 2`, Python floor division (floor toward negative
infinity), which is `Int.fdiv`. -/
def calculate_ability_modifier (ability_score : Int) : Int :=
  (ability_score - 10).fdiv 2

/-- engines/utils.py `calculate_player_ac`: base AC from the first equipped
non-shield armor (10 + dex modifier when unarmored or for an unrecognized
type; armor AC + dex for light/medium; armor AC alone for heavy), plus a
flat +2 when any shield is equipped. -/
def calculate_player_ac (player : Playerm) (equipped_armor : List Armor) : Int :=
  let dex_modifier := calculate_ability_modifier player.dexterity
  let has_shield := equipped_armor.any (fun a => a.type == ArmorType.shield)
  let base_armor := equipped_armor.find? (fun a => a.type != ArmorType.shield)
  let ac : Int :=
    match base_armor with
    | none => 10 + dex_modifier
    | some a =>
      match a.type with
      | ArmorType.light => a.ac + dex_modifier
      | ArmorType.medium => a.ac + dex_modifier
      | ArmorType.heavy => a.ac
      | _ => 10 + dex_modifier
  if has_shield then ac + 2 else ac

/-- engines/utils.py `roll_attack`, with the d20 outcome `raw_roll`
(the value random.randint(1, 20) produced) passed in explicitly.
Returns (raw_roll, total, is_hit, is_critical). -/
def roll_attack (raw_roll attacker_bonus target_ac : Int) :
    Int × Int × Bool × Bool :=
  let total := raw_roll + attacker_bonus
  let is_critical := raw_roll == 20
  let is_hit := is_critical || decide (total ≥ target_ac)
  (raw_roll, total, is_hit, is_critical)

/-- engines/utils.py `roll_damage` dice-string parsing: the sides_map
lookup with default 6 for unrecognized strings. -/
def sidesMap (dice_sides : String) : Nat :=
  if pyLower dice_sides == "d4" then 4
  else if pyLower dice_sides == "d6" then 6
  else if pyLower dice_sides == "d8" then 8
  else if pyLower dice_sides == "d10" then 10
  else if pyLower dice_sides == "d12" then 12
  else if pyLower dice_sides == "d20" then 20
  else 6

/-- engines/utils.py `roll_damage`: doubles the dice count on a critical,
then sums that many randint(1, sides) outcomes; the outcomes are the
stream `rolls`, consumed in order. The dice-sides string only selects the
range of randint, so in this embedding it constrains `rolls` through the
hypothesis `1 ≤ rolls i ∧ rolls i ≤ sidesMap dice_sides` of each theorem. -/
def roll_damage (rolls : Nat → Nat) (dice_count : Nat) (_dice_sides : String)
    (is_critical : Bool) : Nat :=
  let effective_dice_count := if is_critical then dice_count * 2 else dice_count
  (List.range effective_dice_count).foldl (fun total i => total + rolls i) 0

/-! ## XP and leveling (engines/xp_utils.py). -/

/-- engines/xp_utils.py `XP_THRESHOLDS` table (levels 1..20). -/
def xpThreshold : Nat → Int
  | 1 => 0
  | 2 => 50
  | 3 => 250
  | 4 => 600
  | 5 => 1200
  | 6 => 2100
  | 7 => 3300
  | 8 => 4800
  | 9 => 6600
  | 10 => 8700
  | 11 => 11100
  | 12 => 13800
  | 13 => 16800
  | 14 => 20100
  | 15 => 23700
  | 16 => 27600
  | 17 => 31800
  | 18 => 36300
  | 19 => 41100
  | 20 => 46200
  | _ => 0

/-- The descending scan of engines/xp_utils.py `get_level_from_xp`:
`for level in range(MAX_LEVEL, 0, -1): if xp >= XP_THRESHOLDS[level]: return level`. -/
def levelScan : Nat → Int → Nat
  | 0, _ => 1
  | Nat.succ k, xp =>
    if xp ≥ xpThreshold (Nat.succ k) then Nat.succ k else levelScan k xp

/-- engines/xp_utils.py `get_level_from_xp`. -/
def get_level_from_xp (xp : Int) : Nat := levelScan 20 xp

/-! ## Equipment state and hand-slot legality
(storage/repositories/player.py). The player_weapons / player_armor join
rows become lists of (item, equipped-flag) pairs; the SQL UPDATE that sets
`equipped = 1` for a given item id becomes a map over the list. -/

/-- storage/models.py `EquipmentSlotError`, kept distinct from the
ValueError raised when the item id is missing from the table. -/
inductive EquipError where
  | slotError (msg : String)
  | valueError (msg : String)
deriving DecidableEq, Repr

/-- A player's weapon and armor inventory join rows (item, equipped flag). -/
structure EquipState where
  weapons : List (Weapon × Bool)
  armors : List (Armor × Bool)
deriving DecidableEq, Repr

/-- player.py `get_equipped_weapons`: the weapons whose join row has
`equipped = 1`. -/
def get_equipped_weapons (s : EquipState) : List Weapon :=
  (s.weapons.filter (fun wb => wb.2)).map (fun wb => wb.1)

/-- player.py `get_equipped_armor`. -/
def get_equipped_armor (s : EquipState) : List Armor :=
  (s.armors.filter (fun ab => ab.2)).map (fun ab => ab.1)

/-- player.py `PlayerRepository._validate_weapon_slots`, branch for branch.
The local Python variables equipped_weapons (the currently equipped
weapons, excluding the one being equipped), equipped_shields,
two_handed_weapons and one_handed_weapons are inlined. -/
def validate_weapon_slots (s : EquipState) (weapon_to_equip : Weapon) :
    Except EquipError Unit :=
  if weapon_to_equip.hands_required = HandsRequired.two_handed then
    if (get_equipped_weapons s).filter (fun w => w.id ≠ weapon_to_equip.id) ≠ [] then
      Except.error (EquipError.slotError
        ("Cannot equip two-handed weapon " ++ weapon_to_equip.name ++
          ": already have " ++
          toString ((get_equipped_weapons s).filter
            (fun w => w.id ≠ weapon_to_equip.id)).length ++
          " weapon(s) equipped. Unequip all weapons first."))
    else if (get_equipped_armor s).filter
        (fun a => a.type = ArmorType.shield) ≠ [] then
      Except.error (EquipError.slotError
        ("Cannot equip two-handed weapon " ++ weapon_to_equip.name ++
          ": shield is equipped. Unequip shield first."))
    else Except.ok ()
  else
    if ((get_equipped_weapons s).filter
        (fun w => w.id ≠ weapon_to_equip.id)).filter
        (fun w => w.hands_required = HandsRequired.two_handed) ≠ [] then
      Except.error (EquipError.slotError
        ("Cannot equip one-handed weapon " ++ weapon_to_equip.name ++
          ": two-handed weapon is equipped. Unequip it first."))
    else if (((get_equipped_weapons s).filter
        (fun w => w.id ≠ weapon_to_equip.id)).filter
        (fun w => w.hands_required = HandsRequired.one_handed)).length ≥ 2 then
      Except.error (EquipError.slotError
        ("Cannot equip one-handed weapon " ++ weapon_to_equip.name ++
          ": already have 2 one-handed weapons equipped. Unequip one first."))
    else if (((get_equipped_weapons s).filter
          (fun w => w.id ≠ weapon_to_equip.id)).filter
          (fun w => w.hands_required = HandsRequired.one_handed)).length = 1 ∧
        (get_equipped_armor s).filter (fun a => a.type = ArmorType.shield) ≠ [] then
      Except.error (EquipError.slotError
        ("Cannot equip one-handed weapon " ++ weapon_to_equip.name ++
          ": already have one weapon and a shield equipped. Unequip one first."))
    else Except.ok ()

/-- player.py `PlayerRepository._validate_shield_slots`: only the equipped
weapons are examined; already-equipped shields are never counted. -/
def validate_shield_slots (s : EquipState) : Except EquipError Unit :=
  if get_equipped_weapons s = [] then Except.ok ()
  else
    if (get_equipped_weapons s).filter
        (fun w => w.hands_required = HandsRequired.two_handed) ≠ [] then
      Except.error (EquipError.slotError
        "Cannot equip shield: two-handed weapon is equipped. Unequip it first.")
    else if ((get_equipped_weapons s).filter
        (fun w => w.hands_required = HandsRequired.one_handed)).length ≥ 2 then
      Except.error (EquipError.slotError
        "Cannot equip shield: already have 2 one-handed weapons equipped. Unequip one weapon first.")
    else Except.ok ()

/-- The UPDATE setting `equipped = 1` on the weapon row with the given id. -/
def setWeaponEquipped (s : EquipState) (weapon_id : Nat) : EquipState :=
  { s with weapons :=
      s.weapons.map (fun wb => if wb.1.id = weapon_id then (wb.1, true) else wb) }

/-- The UPDATE setting `equipped = 1` on the armor row with the given id. -/
def setArmorEquipped (s : EquipState) (armor_id : Nat) : EquipState :=
  { s with armors :=
      s.armors.map (fun ab => if ab.1.id = armor_id then (ab.1, true) else ab) }

/-- player.py `PlayerRepository.equip_weapon`: fetch the weapon row
(ValueError when absent), validate the hand slots, then set the
equipped flag. -/
def equip_weapon (s : EquipState) (weapon_id : Nat) : Except EquipError EquipState :=
  match s.weapons.find? (fun wb => wb.1.id == weapon_id) with
  | none =>
    Except.error (EquipError.valueError
      ("Weapon with id " ++ toString weapon_id ++ " not found"))
  | some wb =>
    match validate_weapon_slots s wb.1 with
    | Except.error e => Except.error e
    | Except.ok _ => Except.ok (setWeaponEquipped s weapon_id)

/-- player.py `PlayerRepository.equip_armor`: fetch the armor row
(ValueError when absent), validate the hand slots only when the piece is a
shield, then set the equipped flag. -/
def equip_armor (s : EquipState) (armor_id : Nat) : Except EquipError EquipState :=
  match s.armors.find? (fun ab => ab.1.id == armor_id) with
  | none =>
    Except.error (EquipError.valueError
      ("Armor with id " ++ toString armor_id ++ " not found"))
  | some ab =>
    if ab.1.type = ArmorType.shield then
      match validate_shield_slots s with
      | Except.error e => Except.error e
      | Except.ok _ => Except.ok (setArmorEquipped s armor_id)
    else Except.ok (setArmorEquipped s armor_id)

/-- Count of equipped two-handed weapons. -/
def numTwoHanded (s : EquipState) : Nat :=
  ((get_equipped_weapons s).filter
    (fun w => w.hands_required = HandsRequired.two_handed)).length

/-- Count of equipped one-handed weapons. -/
def numOneHanded (s : EquipState) : Nat :=
  ((get_equipped_weapons s).filter
    (fun w => w.hands_required = HandsRequired.one_handed)).length

/-- Count of equipped shields. -/
def numShields (s : EquipState) : Nat :=
  ((get_equipped_armor s).filter (fun a => a.type = ArmorType.shield)).length

/-- Modelled from the spec: the claimed per-player hand budget of §3 /
§4.2, in terms of the glossary's "abstract two-unit capacity governing
weapon/shield equip legality" where a two-handed weapon occupies two units
and each one-handed weapon or shield occupies one. The enumerated legal
sets of the claim (one two-handed weapon alone, up to two one-handed
weapons, or one one-handed weapon plus one shield) all satisfy this
two-unit bound, so it is the weakest reasonable reading of the claim. -/
def claimedHandBudget (s : EquipState) : Prop :=
  2 * numTwoHanded s + numOneHanded s + numShields s ≤ 2

instance (s : EquipState) : Decidable (claimedHandBudget s) := by
  unfold claimedHandBudget; infer_instance

/-- The hand-slot invariant the validators actually establish: at most one
two-handed weapon, which excludes every other weapon and every shield; at
most two one-handed weapons; and two one-handed weapons exclude shields.
The shield count itself is unconstrained when at most one one-handed
weapon is equipped. -/
def codeHandInvariant (s : EquipState) : Prop :=
  (numTwoHanded s = 0 ∨
    (numTwoHanded s = 1 ∧ numOneHanded s = 0 ∧ numShields s = 0)) ∧
  numOneHanded s ≤ 2 ∧
  (numOneHanded s = 2 → numShields s = 0)

instance (s : EquipState) : Decidable (codeHandInvariant s) := by
  unfold codeHandInvariant; infer_instance

/-! ## Combat state and the attack tools
(llm/combat/tools/attack_tools.py). `GameState` plus the repository-backed
rows the attack tools read and write: the player row, the NPC table, and
the battle's participant rows (in the order `get_by_battle` returns them). -/

structure CombatState where
  player : Playerm
  npcs : List NPCm
  participants : List Participant
  battle_id : Nat
  equipped_weapons : List Weapon
  equipped_armor : List Armor
  pending_level_up : Bool
deriving DecidableEq, Repr

/-- Python truthiness of an optional integer foreign key
(`if participant.npc_id:`): false for None and for 0. -/
def optTruthy : Option Nat → Bool
  | none => false
  | some n => n != 0

/-- npc.py / repositories `get_by_id`: first row with the id. -/
def npcGetById (npcs : List NPCm) (i : Nat) : Option NPCm :=
  npcs.find? (fun n => n.id == i)

/-- `update_hp` on the npcs table: set hp on every row with the id. -/
def update_npc_hp (npcs : List NPCm) (i : Nat) (hp : Int) : List NPCm :=
  npcs.map (fun n => if n.id = i then { n with hp := hp } else n)

/-- battle_participant.py `update_is_active` with an npc id: set the flag
on the battle's rows with that npc id. -/
def update_participant_is_active (ps : List Participant) (i : Nat) (b : Bool) :
    List Participant :=
  ps.map (fun p => if p.npc_id = some i then { p with is_active := b } else p)

/-- The NPC-target search loop of `npc_attack_execute`: the first
participant row with a truthy npc id whose NPC row exists and whose name
matches case-insensitively. Neither `is_active` nor the disposition is
examined. -/
def npcAttackFindTarget (npcs : List NPCm) (target_name : String) :
    List Participant → Option NPCm
  | [] => none
  | p :: rest =>
    if optTruthy p.npc_id then
      match npcGetById npcs (p.npc_id.getD 0) with
      | some npc =>
        if pyLower npc.name == pyLower target_name then some npc
        else npcAttackFindTarget npcs target_name rest
      | none => npcAttackFindTarget npcs target_name rest
    else npcAttackFindTarget npcs target_name rest

/-- The damage-application tail of `npc_attack_execute` when the target is
the player. -/
def npcAttackApplyToPlayer (attacker : NPCm) (is_hit : Bool) (damage : Nat)
    (s : CombatState) : CombatState × String :=
  if is_hit ∧ damage > 0 then
    let old_hp := s.player.hp
    let new_hp := max 0 (old_hp - (damage : Int))
    let s1 := { s with player := { s.player with hp := new_hp } }
    let base_msg := attacker.name ++ " hit " ++ s.player.name ++ " for " ++
      toString damage ++ " damage! " ++ s.player.name ++ " HP: " ++
      toString old_hp ++ " → " ++ toString new_hp
    if new_hp = 0 then
      (s1, base_msg ++ "\n💀 " ++ s.player.name ++ " has been defeated!")
    else (s1, base_msg)
  else (s, attacker.name ++ " missed " ++ s.player.name ++ "!")

/-- The damage-application tail of `npc_attack_execute` when the target is
an NPC: clamp HP at zero and mark the participant row inactive when the
new HP is zero. -/
def npcAttackApplyToNpc (attacker target_npc : NPCm) (target_name : String)
    (is_hit : Bool) (damage : Nat) (s : CombatState) : CombatState × String :=
  if is_hit ∧ damage > 0 then
    let old_hp := target_npc.hp
    let new_hp := max 0 (old_hp - (damage : Int))
    let npcs1 := update_npc_hp s.npcs target_npc.id new_hp
    let base_msg := attacker.name ++ " hit " ++ target_npc.name ++ " for " ++
      toString damage ++ " damage! " ++ target_npc.name ++ " HP: " ++
      toString old_hp ++ " → " ++ toString new_hp
    if new_hp = 0 then
      ({ s with
          npcs := npcs1,
          participants := update_participant_is_active s.participants target_npc.id false },
        base_msg ++ "\n💀 " ++ target_npc.name ++ " has been defeated!")
    else ({ s with npcs := npcs1 }, base_msg)
  else (s, attacker.name ++ " missed " ++ target_name ++ "!")

/-- attack_tools.py `npc_attack_execute`. The d20 outcome and the damage
dice outcomes are explicit parameters. Target resolution: the player by
case-insensitive name, else the first NPC participant whose name matches
(see `npcAttackFindTarget`); a missing attacker or target yields an error
message and an unchanged state. -/
def npc_attack_execute (attacking_npc_id : Nat) (target_name : String)
    (d20 : Int) (damageRolls : Nat → Nat) (s : CombatState) :
    CombatState × String :=
  match npcGetById s.npcs attacking_npc_id with
  | none =>
    (s, "Error: Attacking NPC with ID " ++ toString attacking_npc_id ++ " not found.")
  | some attacker =>
    if pyLower target_name == pyLower s.player.name then
      let target_ac := calculate_player_ac s.player s.equipped_armor
      let res := roll_attack d20 attacker.attack_mod target_ac
      let is_hit := res.2.2.1
      let is_critical := res.2.2.2
      let damage :=
        if is_hit then
          roll_damage damageRolls attacker.damage_dice_count
            attacker.damage_dice_sides is_critical
        else 0
      npcAttackApplyToPlayer attacker is_hit damage s
    else
      match npcAttackFindTarget s.npcs target_name s.participants with
      | none => (s, "Error: Target " ++ target_name ++ " not found in battle.")
      | some target_npc =>
        let res := roll_attack d20 attacker.attack_mod target_npc.ac
        let is_hit := res.2.2.1
        let is_critical := res.2.2.2
        let damage :=
          if is_hit then
            roll_damage damageRolls attacker.damage_dice_count
              attacker.damage_dice_sides is_critical
          else 0
        npcAttackApplyToNpc attacker target_npc target_name is_hit damage s

/-- The equipped-weapon search loop of `player_attack_execute`: first
equipped weapon whose name matches case-insensitively. -/
def findEquippedWeapon (ws : List Weapon) (weapon_name : String) : Option Weapon :=
  ws.find? (fun w => pyLower w.name == pyLower weapon_name)

/-- The target search loop of `player_attack_execute`: only participant
rows with a truthy npc id that are `is_active` are considered; a matching
non-hostile NPC aborts the whole call with an error, a matching hostile
NPC is the target. -/
def playerFindTarget (npcs : List NPCm) (target_name : String) :
    List Participant → Except String (Option NPCm)
  | [] => Except.ok none
  | p :: rest =>
    if optTruthy p.npc_id && p.is_active then
      match npcGetById npcs (p.npc_id.getD 0) with
      | some npc =>
        if pyLower npc.name == pyLower target_name then
          if npc.disposition ≠ Disposition.hostile then
            Except.error ("Error: " ++ npc.name ++
              " is not hostile. You can only attack hostile enemies.")
          else Except.ok (some npc)
        else playerFindTarget npcs target_name rest
      | none => playerFindTarget npcs target_name rest
    else playerFindTarget npcs target_name rest

/-- ui/battle_display.py `display_player_attack_interactive`: rolls the
d20, applies the bonus, decides hit/critical exactly as
engines/utils.py `roll_attack` does, and on a hit sums the (doubled on a
critical) damage dice. Returns (attack_roll, attack_total, is_hit, damage). -/
def display_player_attack_interactive (attack_bonus target_ac : Int)
    (dice_count : Nat) (d20 : Int) (damageRolls : Nat → Nat) :
    Int × Int × Bool × Nat :=
  let attack_roll := d20
  let attack_total := attack_roll + attack_bonus
  let is_critical := attack_roll == 20
  let is_hit := is_critical || decide (attack_total ≥ target_ac)
  let damage :=
    if is_hit then
      let effective_dice_count := if is_critical then dice_count * 2 else dice_count
      (List.range effective_dice_count).foldl (fun total i => total + damageRolls i) 0
    else 0
  (attack_roll, attack_total, is_hit, damage)

/-- The damage-application tail of `player_attack_execute`: clamp the
target's HP at zero; when it reaches zero, mark the participant row
inactive and award the NPC's XP immediately (recomputing the level and the
pending-level-up flag); the NPC's gold is only mentioned in the message,
never credited. -/
def playerAttackApply (target_npc : NPCm) (is_hit : Bool) (damage : Nat)
    (s : CombatState) : CombatState × String :=
  if is_hit ∧ damage > 0 then
    let old_hp := target_npc.hp
    let new_hp := max 0 (old_hp - (damage : Int))
    let npcs1 := update_npc_hp s.npcs target_npc.id new_hp
    let base_msg := s.player.name ++ " hit " ++ target_npc.name ++ " for " ++
      toString damage ++ " damage! " ++ target_npc.name ++ " HP: " ++
      toString old_hp ++ " → " ++ toString new_hp
    if new_hp = 0 then
      let parts1 := update_participant_is_active s.participants target_npc.id false
      let old_level := s.player.level
      let xp_gained := target_npc.xp
      let gold_gained := target_npc.gold
      let new_xp := s.player.xp + xp_gained
      let new_level := get_level_from_xp new_xp
      let player1 := { s.player with xp := new_xp, level := new_level }
      let pending := if new_level > old_level then true else s.pending_level_up
      ({ s with
          npcs := npcs1,
          participants := parts1,
          player := player1,
          pending_level_up := pending },
        base_msg ++ "\n💀 " ++ target_npc.name ++ " has been defeated! Gained " ++
          toString xp_gained ++ " XP and " ++ toString gold_gained ++ " gold.")
    else ({ s with npcs := npcs1 }, base_msg)
  else (s, s.player.name ++ " missed " ++ target_npc.name ++ "!")

/-- attack_tools.py `player_attack_execute`: look up the equipped weapon by
name, find a valid hostile active target, derive the attack bonus from the
player's strength (melee) or dexterity (ranged) — the player row has no
stored attack-bonus field — resolve the attack interactively, and apply
the damage. -/
def player_attack_execute (weapon_name target_name : String) (d20 : Int)
    (damageRolls : Nat → Nat) (s : CombatState) : CombatState × String :=
  match findEquippedWeapon s.equipped_weapons weapon_name with
  | none =>
    (s, "Error: Weapon " ++ weapon_name ++
      " is not equipped. Please try again with an equipped weapon.")
  | some weapon =>
    match playerFindTarget s.npcs target_name s.participants with
    | Except.error e => (s, e)
    | Except.ok none =>
      (s, "Error: Hostile NPC " ++ target_name ++
        " not found in battle or already defeated.")
    | Except.ok (some target_npc) =>
      let attack_bonus :=
        if weapon.type = WeaponType.melee then
          calculate_ability_modifier s.player.strength
        else
          calculate_ability_modifier s.player.dexterity
      let r := display_player_attack_interactive attack_bonus target_npc.ac
        weapon.damage_dice_count d20 damageRolls
      playerAttackApply target_npc r.2.2.1 r.2.2.2 s

/-- The gold a single participant row contributes in the loop of
`_end_combat_victory`: its NPC's gold when the row references an existing
hostile NPC at or below 0 HP, and nothing otherwise. -/
def victoryGoldOf (npcs : List NPCm) (p : Participant) : Int :=
  match p.npc_id with
  | some i =>
    match npcGetById npcs i with
    | some npc =>
      if npc.disposition = Disposition.hostile ∧ npc.hp ≤ 0 then npc.gold else 0
    | none => 0
  | none => 0

/-- engines/combat.py `CombatEngine._end_combat_victory`: sum the gold of
every hostile NPC participant of the battle whose HP is ≤ 0 (the loop body
is factored as `victoryGoldOf`) and credit the lump sum to the player (the
update is skipped when the sum is zero, which leaves the gold equally
unchanged). -/
def end_combat_victory (s : CombatState) : CombatState :=
  let total_gold :=
    s.participants.foldl (fun acc p => acc + victoryGoldOf s.npcs p) 0
  if total_gold > 0 then
    { s with player := { s.player with gold := s.player.gold + total_gold } }
  else s

/-- The combat HP invariant of the claims: the player's HP lies in
[0, max_hp], every NPC's HP lies in [0, max_hp], and an NPC at 0 HP has
every one of its battle-participant rows marked inactive. (The player's
own participant row is never deactivated by the code: the player reaching
0 HP ends the battle in Death instead.) -/
def hpInvariant (s : CombatState) : Prop :=
  (0 ≤ s.player.hp ∧ s.player.hp ≤ s.player.max_hp) ∧
  ∀ n ∈ s.npcs, (0 ≤ n.hp ∧ n.hp ≤ n.max_hp) ∧
    (n.hp = 0 → ∀ p ∈ s.participants, p.npc_id = some n.id → p.is_active = false)

instance (s : CombatState) : Decidable (hpInvariant s) := by
  unfold hpInvariant
  infer_instance

/-! ## Initiative and turn-order assignment
(llm/game/tools/initiate_combat_tools.py `_roll_initiative_for_battle`,
from the point where every participant's `initiative_roll` has been
persisted: filter the rows that have a roll, Python-stable-sort them by
roll descending, and enumerate turn orders starting at 1). -/

/-- The sort key (`key=lambda p: p.initiative_roll` over rows that all have
a roll). -/
def initKey (p : Participant) : Int := p.initiative_roll.getD 0

/-- Stable descending insertion: the new element (earlier in the original
list) goes before the first element whose key is ≤ its own, which is
exactly the ordering Python's stable `sort(key, reverse=True)` produces. -/
def insertByInitiativeDesc (p : Participant) : List Participant → List Participant
  | [] => [p]
  | q :: qs =>
    if initKey q ≤ initKey p then p :: q :: qs
    else q :: insertByInitiativeDesc p qs

/-- Stable sort by initiative roll descending. -/
def sortByInitiativeDesc (l : List Participant) : List Participant :=
  l.foldr insertByInitiativeDesc []

/-- `_roll_initiative_for_battle`, steps after all rolls are persisted:
keep the participants whose `initiative_roll` is set, sort descending, and
pair each with its enumerated turn order 1, 2, …, which `update_turn_order`
persists. -/
def roll_initiative_assign (participants : List Participant) :
    List (Participant × Nat) :=
  let participants_with_initiative :=
    participants.filter (fun p => p.initiative_roll.isSome)
  let sorted := sortByInitiativeDesc participants_with_initiative
  sorted.zip (List.range' 1 sorted.length)

/-! ## The combat loop's turn-index persistence trace
(engines/combat.py `CombatEngine.run_combat_loop`, the per-round for-loop).

The loop is modelled as the trace of observable events it emits in order:
`persist i` (a `battle_repo.update_turn_index(battle_id, i)` call together
with the in-memory `battle.current_turn_index = i` assignment), `turn i`
(the resolution of the participant at index `i` of the active list, i.e.
the `_handle_player_turn` / `_handle_npc_turn` call), and `waitAck` (the
blocking "Press Enter to continue..." input() after an NPC turn).

The collaborators are abstracted by three parameters indexed by the loop
iteration `i` (0-based within the round): `activeAt i` is the result of the
fresh re-fetch check of the participant taken at iteration `i`;
`isPlayer idx` says whether the participant at active-list index `idx` is
the player row; `outcome i` says whether the end-of-combat checks directly
after the turn of iteration `i` end the loop (player death, victory, or
escape — each `return`s) or let it continue. -/

inductive TurnOutcome where
  | cont | ended
deriving DecidableEq, Repr

inductive CEvent where
  | persist (i : Nat)
  | turn (i : Nat)
  | waitAck
deriving DecidableEq, Repr

/-- The events of the `for i in range(num_participants)` loop, from
iteration `i` with `rem` iterations remaining. A skipped (inactive)
participant emits nothing; a resolved turn emits `persist idx` before the
turn, then — only when combat continues — `persist ((idx+1) % num)`, and
for an NPC turn the blocking `waitAck` strictly after that persist. -/
def combatLoopTurns (start num : Nat) (activeAt : Nat → Bool)
    (isPlayer : Nat → Bool) (outcome : Nat → TurnOutcome) :
    Nat → Nat → List CEvent
  | _, 0 => []
  | i, rem + 1 =>
    let idx := (start + i) % num
    if activeAt i then
      CEvent.persist idx :: CEvent.turn idx ::
        (match outcome i with
         | TurnOutcome.ended => []
         | TurnOutcome.cont =>
           CEvent.persist ((idx + 1) % num) ::
             (if isPlayer idx then
                combatLoopTurns start num activeAt isPlayer outcome (i + 1) rem
              else
                CEvent.waitAck ::
                  combatLoopTurns start num activeAt isPlayer outcome (i + 1) rem))
    else combatLoopTurns start num activeAt isPlayer outcome (i + 1) rem

/-- One round of `run_combat_loop` as restarted from a persisted
`current_turn_index = saved`: the out-of-range reset (persist 0 and start
at 0) followed by the turn loop. -/
def combatLoopRound (saved num : Nat) (activeAt : Nat → Bool)
    (isPlayer : Nat → Bool) (outcome : Nat → TurnOutcome) : List CEvent :=
  if saved ≥ num then
    CEvent.persist 0 :: combatLoopTurns 0 num activeAt isPlayer outcome 0 num
  else combatLoopTurns saved num activeAt isPlayer outcome 0 num

/-- The index of the first resolved turn in a trace. -/
def firstTurn : List CEvent → Option Nat
  | [] => none
  | CEvent.turn i :: _ => some i
  | _ :: rest => firstTurn rest

/-! ## Claim C2 — attack roll resolution. -/

/-- Claim C2: for every attack bonus and target AC, `roll_attack` returns
(rawRoll, total, isHit, isCritical) with rawRoll the d20 outcome in
[1, 20], total = rawRoll + bonus, isCritical exactly when rawRoll = 20,
and isHit = isCritical OR total ≥ targetAC; in particular a raw roll of 20
always hits. -/
theorem roll_attack_resolution (attacker_bonus target_ac raw_roll : Int)
    (h1 : 1 ≤ raw_roll) (h2 : raw_roll ≤ 20) :
    (roll_attack raw_roll attacker_bonus target_ac).1 = raw_roll ∧
    (1 ≤ (roll_attack raw_roll attacker_bonus target_ac).1 ∧
      (roll_attack raw_roll attacker_bonus target_ac).1 ≤ 20) ∧
    (roll_attack raw_roll attacker_bonus target_ac).2.1 = raw_roll + attacker_bonus ∧
    ((roll_attack raw_roll attacker_bonus target_ac).2.2.2 = true ↔ raw_roll = 20) ∧
    ((roll_attack raw_roll attacker_bonus target_ac).2.2.1 =
      ((roll_attack raw_roll attacker_bonus target_ac).2.2.2 ||
        decide (raw_roll + attacker_bonus ≥ target_ac))) ∧
    (raw_roll = 20 → (roll_attack raw_roll attacker_bonus target_ac).2.2.1 = true) := by
  refine ⟨rfl, ⟨h1, h2⟩, rfl, ?_, rfl, ?_⟩
  · simp [roll_attack]
  · intro h20
    subst h20
    simp [roll_attack]

/-- Witness for C2 at a concrete input: a natural 20 with bonus −30
against AC 15 is reported as a hit even though 20 + (−30) < 15. -/
theorem roll_attack_resolution_witness :
    (roll_attack 20 (-30) 15).2.2.1 = true ∧ (20 : Int) + (-30) < 15 :=
  ⟨(roll_attack_resolution (-30) 15 20 (by decide) (by decide)).2.2.2.2.2 rfl,
    by decide⟩

/-! ## Claim C8 — critical damage doubles the dice count. -/

/-- Bounds for a sum of dice outcomes: summing `m` outcomes each in
[lo, hi] lands in [m·lo, m·hi]. -/
theorem rollSum_bounds (rolls : Nat → Nat) (lo hi : Nat) :
    ∀ m, (∀ i, i < m → lo ≤ rolls i ∧ rolls i ≤ hi) →
      m * lo ≤ (List.range m).foldl (fun total i => total + rolls i) 0 ∧
        (List.range m).foldl (fun total i => total + rolls i) 0 ≤ m * hi := by
  intro m
  induction m with
  | zero => simp
  | succ k ih =>
    intro h
    have hk := ih (fun i hi => h i (Nat.lt_succ_of_lt hi))
    have hlast := h k (Nat.lt_succ_self k)
    rw [List.range_succ, List.foldl_append]
    simp only [List.foldl_cons, List.foldl_nil]
    constructor
    · have : (k + 1) * lo = k * lo + lo := by ring
      rw [this]
      exact Nat.add_le_add hk.1 hlast.1
    · have : (k + 1) * hi = k * hi + hi := by ring
      rw [this]
      exact Nat.add_le_add hk.2 hlast.2

/-- Claim C8: on a critical, `roll_damage` sums exactly 2·n dice outcomes —
it equals the non-critical roll of 2·n dice over the same outcome stream —
and with every outcome in [1, faceSize] the total lies in
[2·n, 2·n·faceSize]; in particular 1 die of face size 6 rolled critically
totals in [2, 12]. -/
theorem roll_damage_critical_doubles_dice (rolls : Nat → Nat) (n : Nat)
    (ds : String)
    (h : ∀ i, i < 2 * n → 1 ≤ rolls i ∧ rolls i ≤ sidesMap ds) :
    roll_damage rolls n ds true = roll_damage rolls (2 * n) ds false ∧
    2 * n ≤ roll_damage rolls n ds true ∧
    roll_damage rolls n ds true ≤ 2 * n * sidesMap ds ∧
    (n = 1 → sidesMap ds = 6 →
      2 ≤ roll_damage rolls n ds true ∧ roll_damage rolls n ds true ≤ 12) := by
  have hud : roll_damage rolls n ds true =
      (List.range (2 * n)).foldl (fun total i => total + rolls i) 0 := by
    simp [roll_damage, Nat.mul_comm]
  have hb := rollSum_bounds rolls 1 (sidesMap ds) (2 * n) h
  refine ⟨by simp [roll_damage, Nat.mul_comm], ?_, ?_, ?_⟩
  · rw [hud]
    simpa using hb.1
  · rw [hud]
    exact hb.2
  · intro hn hs
    subst hn
    constructor
    · rw [hud]
      simpa using hb.1
    · rw [hud]
      have := hb.2
      rw [hs] at this
      simpa using this

/-- Witness for C8 at a concrete input: one d6 rolled critically with both
outcomes equal to 3 totals 6, inside [2, 12]. -/
theorem roll_damage_critical_doubles_dice_witness :
    2 ≤ roll_damage (fun _ => 3) 1 "d6" true ∧
      roll_damage (fun _ => 3) 1 "d6" true ≤ 12 :=
  (roll_damage_critical_doubles_dice (fun _ => 3) 1 "d6"
    (by intro i _; show 1 ≤ 3 ∧ 3 ≤ sidesMap "d6"; decide)).2.2.2 rfl (by decide)

/-! ## Claim C9 — player armor class derivation. -/

/-- Claim C9: `calculate_player_ac` yields 10 + dexMod with no non-shield
armor equipped, armor.ac + dexMod for the considered (first) light or
medium piece, and armor.ac alone for a heavy piece; any equipped shield
adds a flat +2 independent of the shield's stored AC; and the dexterity
modifier is the floor (toward negative infinity) of (score − 10)/2. -/
theorem calculate_player_ac_derivation (p : Playerm) (l : List Armor) :
    (∀ s : Int, 2 * calculate_ability_modifier s ≤ s - 10 ∧
      s - 10 < 2 * calculate_ability_modifier s + 2) ∧
    (l.find? (fun a => a.type != ArmorType.shield) = none →
      calculate_player_ac p l = 10 + calculate_ability_modifier p.dexterity +
        (if l.any (fun a => a.type == ArmorType.shield) then (2 : Int) else 0)) ∧
    (∀ a, l.find? (fun a => a.type != ArmorType.shield) = some a →
      (a.type = ArmorType.light ∨ a.type = ArmorType.medium) →
      calculate_player_ac p l = a.ac + calculate_ability_modifier p.dexterity +
        (if l.any (fun a => a.type == ArmorType.shield) then (2 : Int) else 0)) ∧
    (∀ a, l.find? (fun a => a.type != ArmorType.shield) = some a →
      a.type = ArmorType.heavy →
      calculate_player_ac p l = a.ac +
        (if l.any (fun a => a.type == ArmorType.shield) then (2 : Int) else 0)) := by
  refine ⟨?_, ?_, ?_, ?_⟩
  · intro s
    unfold calculate_ability_modifier
    rw [Int.fdiv_eq_ediv _ (by decide)]
    have h1 := Int.emod_nonneg (s - 10) (by decide : (2 : Int) ≠ 0)
    have h2 := Int.emod_lt_of_pos (s - 10) (by decide : (0 : Int) < 2)
    have h3 := Int.ediv_add_emod (s - 10) 2
    omega
  · intro hfind
    unfold calculate_player_ac
    rw [hfind]
    cases hsh : l.any (fun a => a.type == ArmorType.shield) <;> simp [hsh]
  · intro a hfind htype
    rcases htype with h | h <;>
      · simp only [calculate_player_ac, hfind, h]
        cases hsh : l.any (fun a => a.type == ArmorType.shield) <;> simp [hsh]
  · intro a hfind htype
    simp only [calculate_player_ac, hfind, htype]
    cases hsh : l.any (fun a => a.type == ArmorType.shield) <;> simp [hsh]

/-- Witness for C9 at a concrete input: dexterity 14 (modifier +2), light
armor of AC 11 plus a shield whose stored AC is 5 gives 11 + 2 + 2 = 15 —
the shield contributes its flat +2, not its stored 5. -/
theorem calculate_player_ac_derivation_witness :
    calculate_player_ac
      { id := 1, name := "hero", hp := 10, max_hp := 10, xp := 0, gold := 0,
        level := 1, strength := 10, dexterity := 14, constitution := 10,
        intelligence := 10, wisdom := 10, charisma := 10 }
      [{ id := 1, name := "leather", type := ArmorType.light, ac := 11 },
       { id := 2, name := "buckler", type := ArmorType.shield, ac := 5 }] = 15 := by
  have h := (calculate_player_ac_derivation
      { id := 1, name := "hero", hp := 10, max_hp := 10, xp := 0, gold := 0,
        level := 1, strength := 10, dexterity := 14, constitution := 10,
        intelligence := 10, wisdom := 10, charisma := 10 }
      [{ id := 1, name := "leather", type := ArmorType.light, ac := 11 },
       { id := 2, name := "buckler", type := ArmorType.shield, ac := 5 }]).2.2.1
      { id := 1, name := "leather", type := ArmorType.light, ac := 11 }
      (by decide) (Or.inl rfl)
  rw [h]
  decide

/-! ## Claim C5 — initiative assigns a dense turn-order permutation. -/

/-- Membership through the stable descending insert. -/
theorem mem_insertByInitiativeDesc {p q : Participant} {l : List Participant} :
    q ∈ insertByInitiativeDesc p l ↔ q = p ∨ q ∈ l := by
  induction l with
  | nil => simp [insertByInitiativeDesc]
  | cons r rs ih =>
    by_cases hle : initKey r ≤ initKey p
    · simp only [insertByInitiativeDesc, if_pos hle]
      simp [List.mem_cons]
    · simp only [insertByInitiativeDesc, if_neg hle]
      simp only [List.mem_cons, ih]
      tauto

/-- The stable descending insert keeps the list sorted by key descending. -/
theorem pairwise_insertByInitiativeDesc {p : Participant} {l : List Participant}
    (h : List.Pairwise (fun a b => initKey b ≤ initKey a) l) :
    List.Pairwise (fun a b => initKey b ≤ initKey a) (insertByInitiativeDesc p l) := by
  induction l with
  | nil => simp [insertByInitiativeDesc]
  | cons r rs ih =>
    rcases List.pairwise_cons.mp h with ⟨hr, hrs⟩
    by_cases hle : initKey r ≤ initKey p
    · simp only [insertByInitiativeDesc, if_pos hle]
      refine List.pairwise_cons.mpr ⟨?_, h⟩
      intro x hx
      rcases List.mem_cons.mp hx with rfl | hx2
      · exact hle
      · exact le_trans (hr x hx2) hle
    · simp only [insertByInitiativeDesc, if_neg hle]
      refine List.pairwise_cons.mpr ⟨?_, ih hrs⟩
      intro x hx
      rcases mem_insertByInitiativeDesc.mp hx with rfl | hx2
      · exact le_of_lt (lt_of_not_le hle)
      · exact hr x hx2

/-- Inserting permutes to consing. -/
theorem perm_insertByInitiativeDesc (p : Participant) (l : List Participant) :
    List.Perm (insertByInitiativeDesc p l) (p :: l) := by
  induction l with
  | nil => exact List.Perm.refl _
  | cons r rs ih =>
    by_cases hle : initKey r ≤ initKey p
    · simp only [insertByInitiativeDesc, if_pos hle]
      exact List.Perm.refl _
    · simp only [insertByInitiativeDesc, if_neg hle]
      exact (ih.cons r).trans (List.Perm.swap p r rs)

/-- The initiative sort is a permutation of its input. -/
theorem perm_sortByInitiativeDesc (l : List Participant) :
    List.Perm (sortByInitiativeDesc l) l := by
  induction l with
  | nil => exact List.Perm.refl _
  | cons p ps ih =>
    exact (perm_insertByInitiativeDesc p (sortByInitiativeDesc ps)).trans (ih.cons p)

/-- The initiative sort is sorted by key descending. -/
theorem pairwise_sortByInitiativeDesc (l : List Participant) :
    List.Pairwise (fun a b => initKey b ≤ initKey a) (sortByInitiativeDesc l) := by
  induction l with
  | nil => simp [sortByInitiativeDesc]
  | cons p ps ih => exact pairwise_insertByInitiativeDesc ih

/-- Claim C5: once initiative is assigned for a battle whose N participants
all have an initiative roll, the persisted turn orders are exactly
1, 2, …, N in descending order of initiative roll — a dense permutation
with no duplicates, covering every participant exactly once — and for
N = 3 they are a permutation of 1..3 summing to 6. -/
theorem initiative_turn_order_dense_permutation (ps : List Participant)
    (hall : ∀ p ∈ ps, p.initiative_roll.isSome) :
    (roll_initiative_assign ps).map Prod.snd = List.range' 1 ps.length ∧
    ((roll_initiative_assign ps).map Prod.snd).Nodup ∧
    List.Perm ((roll_initiative_assign ps).map Prod.fst) ps ∧
    List.Pairwise (fun a b => initKey b ≤ initKey a)
      ((roll_initiative_assign ps).map Prod.fst) ∧
    (ps.length = 3 → ((roll_initiative_assign ps).map Prod.snd).sum = 6 ∧
      List.Perm ((roll_initiative_assign ps).map Prod.snd) [1, 2, 3]) := by
  have hfilter : ps.filter (fun p => p.initiative_roll.isSome) = ps :=
    List.filter_eq_self.mpr hall
  have hassign : roll_initiative_assign ps =
      (sortByInitiativeDesc ps).zip
        (List.range' 1 (sortByInitiativeDesc ps).length) := by
    simp [roll_initiative_assign, hfilter]
  have hsortlen : (sortByInitiativeDesc ps).length = ps.length :=
    (perm_sortByInitiativeDesc ps).length_eq
  have hsnd : (roll_initiative_assign ps).map Prod.snd = List.range' 1 ps.length := by
    rw [hassign, List.map_snd_zip _ _ (by rw [List.length_range']), hsortlen]
  have hfst : (roll_initiative_assign ps).map Prod.fst = sortByInitiativeDesc ps := by
    rw [hassign, List.map_fst_zip _ _ (by rw [List.length_range'])]
  refine ⟨hsnd, ?_, ?_, ?_, ?_⟩
  · rw [hsnd]
    exact List.nodup_range' 1 ps.length
  · rw [hfst]
    exact perm_sortByInitiativeDesc ps
  · rw [hfst]
    exact pairwise_sortByInitiativeDesc ps
  · intro h3
    rw [hsnd, h3]
    exact ⟨by decide, by decide⟩

/-- Witness for C5 at a concrete battle of 1 player and 2 hostile NPCs
whose initiative rolls are 12, 8 and 15: the assigned turn orders are
exactly [1, 2, 3] and sum to 6. -/
theorem initiative_turn_order_dense_permutation_witness :
    ((roll_initiative_assign
      [{ battle_id := 1, npc_id := none, player_id := some 1, turn_order := none,
         is_active := true, initiative_roll := some 12 },
       { battle_id := 1, npc_id := some 1, player_id := none, turn_order := none,
         is_active := true, initiative_roll := some 8 },
       { battle_id := 1, npc_id := some 2, player_id := none, turn_order := none,
         is_active := true, initiative_roll := some 15 }]).map Prod.snd).sum = 6 :=
  ((initiative_turn_order_dense_permutation
    [{ battle_id := 1, npc_id := none, player_id := some 1, turn_order := none,
       is_active := true, initiative_roll := some 12 },
     { battle_id := 1, npc_id := some 1, player_id := none, turn_order := none,
       is_active := true, initiative_roll := some 8 },
     { battle_id := 1, npc_id := some 2, player_id := none, turn_order := none,
       is_active := true, initiative_roll := some 15 }]
    (by decide)).2.2.2.2 rfl).1

/-! ## Claim C1 — turn-index persistence ordering and crash recovery. -/

/-- Claim C1: whenever the combat loop resolves the turn of the active
participant at index idx, the trace it emits persists
current_turn_index = idx immediately before the resolution, and — when
combat continues — persists (idx + 1) mod N immediately after the
resolution and strictly before the blocking wait for user acknowledgment
of an NPC turn (a player turn has no such wait); and a loop restarted from
a persisted index saved < N whose first fetched participant is active
resolves the participant at index saved first. Hence terminating during
the post-NPC-turn wait and restarting resumes at (idx + 1) mod N, not idx
and not 0. -/
theorem run_combat_loop_turn_index_persistence (num : Nat)
    (activeAt isPlayer : Nat → Bool) (outcome : Nat → TurnOutcome) :
    (∀ start i rem, activeAt i = true → outcome i = TurnOutcome.cont →
      isPlayer ((start + i) % num) = false →
      combatLoopTurns start num activeAt isPlayer outcome i (rem + 1) =
        CEvent.persist ((start + i) % num) :: CEvent.turn ((start + i) % num) ::
          CEvent.persist (((start + i) % num + 1) % num) :: CEvent.waitAck ::
            combatLoopTurns start num activeAt isPlayer outcome (i + 1) rem) ∧
    (∀ start i rem, activeAt i = true → outcome i = TurnOutcome.cont →
      isPlayer ((start + i) % num) = true →
      combatLoopTurns start num activeAt isPlayer outcome i (rem + 1) =
        CEvent.persist ((start + i) % num) :: CEvent.turn ((start + i) % num) ::
          CEvent.persist (((start + i) % num + 1) % num) ::
            combatLoopTurns start num activeAt isPlayer outcome (i + 1) rem) ∧
    (∀ saved, saved < num → activeAt 0 = true →
      firstTurn (combatLoopRound saved num activeAt isPlayer outcome) = some saved) := by
  refine ⟨?_, ?_, ?_⟩
  · intro start i rem hact hout hpl
    simp [combatLoopTurns, hact, hout, hpl]
  · intro start i rem hact hout hpl
    simp [combatLoopTurns, hact, hout, hpl]
  · intro saved hlt hact
    unfold combatLoopRound
    rw [if_neg (by omega)]
    rcases num with _ | m
    · omega
    · simp only [combatLoopTurns, Nat.add_zero, Nat.mod_eq_of_lt hlt, hact, if_true]
      rcases houtcome : outcome 0 with _ | _ <;> simp [firstTurn]

/-- Witness for C1: the crash-recovery scenario with 3 participants
(the player at index 0, NPCs at 1 and 2). The NPC turn at index 1 emits
persist 1, the turn, persist 2, and only then the blocking wait; a loop
restarted from the persisted index 2 resolves index 2 first — not 1 and
not 0. -/
theorem run_combat_loop_turn_index_persistence_witness :
    combatLoopTurns 0 3 (fun _ => true) (fun i => i == 0)
        (fun _ => TurnOutcome.cont) 1 2 =
      CEvent.persist 1 :: CEvent.turn 1 :: CEvent.persist 2 :: CEvent.waitAck ::
        combatLoopTurns 0 3 (fun _ => true) (fun i => i == 0)
          (fun _ => TurnOutcome.cont) 2 1 ∧
    firstTurn (combatLoopRound 2 3 (fun _ => true) (fun i => i == 0)
      (fun _ => TurnOutcome.cont)) = some 2 ∧
    some 2 ≠ some 1 ∧ (some 2 : Option Nat) ≠ some 0 := by
  refine ⟨?_, ?_, by decide, by decide⟩
  · have h := (run_combat_loop_turn_index_persistence 3 (fun _ => true)
      (fun i => i == 0) (fun _ => TurnOutcome.cont)).1 0 1 1 rfl rfl (by decide)
    simpa using h
  · exact (run_combat_loop_turn_index_persistence 3 (fun _ => true)
      (fun i => i == 0) (fun _ => TurnOutcome.cont)).2.2 2 (by decide) rfl

/-! ## Claim C4 — equipment hand-slot legality. -/

/-- Setting the equipped flag for an id absent from every row is the
identity. -/
theorem map_setEquipped_of_ne {α : Type} (idOf : α → Nat) (wid : Nat) :
    ∀ (rows : List (α × Bool)), (∀ rb ∈ rows, idOf rb.1 ≠ wid) →
      rows.map (fun rb => if idOf rb.1 = wid then (rb.1, true) else rb) = rows := by
  intro rows
  induction rows with
  | nil => intro _; rfl
  | cons r rs ih =>
    intro h
    have hr : idOf r.1 ≠ wid := h r (List.mem_cons_self r rs)
    simp only [List.map_cons, if_neg hr]
    rw [ih (fun rb hrb => h rb (List.mem_cons_of_mem r hrb))]

/-- After setting the equipped flag on the unique row carrying the given
id, the equipped items are — up to permutation — that row's item together
with the previously equipped items of every other id. -/
theorem equipped_after_set_perm {α : Type} (idOf : α → Nat) (wid : Nat) :
    ∀ (rows : List (α × Bool)) (x : α × Bool),
      (rows.map (fun rb => idOf rb.1)).Nodup →
      rows.find? (fun rb => idOf rb.1 == wid) = some x →
      List.Perm
        (((rows.map (fun rb => if idOf rb.1 = wid then (rb.1, true) else rb)).filter
            (fun rb => rb.2)).map (fun rb => rb.1))
        (x.1 :: (((rows.filter (fun rb => rb.2)).map (fun rb => rb.1)).filter
            (fun a => idOf a ≠ wid))) := by
  intro rows
  induction rows with
  | nil => intro x _ hfind; simp at hfind
  | cons r rs ih =>
    intro x hnd hfind
    rw [List.map_cons, List.nodup_cons] at hnd
    obtain ⟨hr_not, hnd_rs⟩ := hnd
    by_cases hid : idOf r.1 = wid
    · have hx : x = r := by
        have := List.find?_cons_of_pos (p := fun rb => idOf rb.1 == wid) rs
          (by simpa using hid)
        rw [this] at hfind
        exact (Option.some_inj.mp hfind).symm
      have hall : ∀ rb ∈ rs, idOf rb.1 ≠ wid := by
        intro rb hrb he
        exact hr_not (by rw [hid, ← he]; exact List.mem_map_of_mem _ hrb)
      have hall2 : ∀ a ∈ (rs.filter (fun rb => rb.2)).map (fun rb => rb.1),
          idOf a ≠ wid := by
        intro a haa
        rcases List.mem_map.mp haa with ⟨rb, hrb, rfl⟩
        exact hall rb (List.mem_of_mem_filter hrb)
      have hself : List.filter (fun a => decide (idOf a ≠ wid))
            ((rs.filter (fun rb => rb.2)).map (fun rb => rb.1)) =
          (rs.filter (fun rb => rb.2)).map (fun rb => rb.1) :=
        List.filter_eq_self.mpr (fun a ha => by simpa using hall2 a ha)
      rw [hx, List.map_cons, if_pos hid, map_setEquipped_of_ne idOf wid rs hall,
        List.filter_cons_of_pos (by rfl), List.map_cons]
      cases hr2 : r.2 with
      | false =>
        rw [List.filter_cons_of_neg (by simp [hr2]), hself]
      | true =>
        rw [List.filter_cons_of_pos (by simp [hr2]), List.map_cons,
          List.filter_cons_of_neg (by simpa using hid), hself]
    · have hfind2 : rs.find? (fun rb => idOf rb.1 == wid) = some x := by
        have := List.find?_cons_of_neg (p := fun rb => idOf rb.1 == wid) rs
          (by simpa using hid)
        rw [this] at hfind
        exact hfind
      have hperm := ih x hnd_rs hfind2
      rw [List.map_cons, if_neg hid]
      cases hr2 : r.2 with
      | false =>
        rw [List.filter_cons_of_neg (by simp [hr2]),
          List.filter_cons_of_neg (by simp [hr2])]
        exact hperm
      | true =>
        rw [List.filter_cons_of_pos (by simp [hr2]),
          List.filter_cons_of_pos (by simp [hr2]), List.map_cons, List.map_cons,
          List.filter_cons_of_pos (by simpa using hid)]
        exact (hperm.cons r.1).trans (List.Perm.swap x.1 r.1 _)

/-- After setting the equipped flag on the unique row carrying the given
id, the equipped items satisfying a predicate that the touched item fails
are exactly the previously equipped ones satisfying it. -/
theorem equipped_filter_after_set_of_not_pred {α : Type} (idOf : α → Nat)
    (wid : Nat) (pS : α → Bool) :
    ∀ (rows : List (α × Bool)) (x : α × Bool),
      (rows.map (fun rb => idOf rb.1)).Nodup →
      rows.find? (fun rb => idOf rb.1 == wid) = some x →
      pS x.1 = false →
      (((rows.map (fun rb => if idOf rb.1 = wid then (rb.1, true) else rb)).filter
          (fun rb => rb.2)).map (fun rb => rb.1)).filter pS =
        (((rows.filter (fun rb => rb.2)).map (fun rb => rb.1)).filter pS) := by
  intro rows
  induction rows with
  | nil => intro x _ hfind _; simp at hfind
  | cons r rs ih =>
    intro x hnd hfind hps
    rw [List.map_cons, List.nodup_cons] at hnd
    obtain ⟨hr_not, hnd_rs⟩ := hnd
    by_cases hid : idOf r.1 = wid
    · have hx : x = r := by
        have := List.find?_cons_of_pos (p := fun rb => idOf rb.1 == wid) rs
          (by simpa using hid)
        rw [this] at hfind
        exact (Option.some_inj.mp hfind).symm
      have hall : ∀ rb ∈ rs, idOf rb.1 ≠ wid := by
        intro rb hrb he
        exact hr_not (by rw [hid, ← he]; exact List.mem_map_of_mem _ hrb)
      have hpsr : pS r.1 = false := by rw [← hx]; exact hps
      rw [List.map_cons, if_pos hid, map_setEquipped_of_ne idOf wid rs hall,
        List.filter_cons_of_pos (by rfl), List.map_cons,
        List.filter_cons_of_neg (by simp [hpsr])]
      cases hr2 : r.2 with
      | false =>
        rw [List.filter_cons_of_neg (by simp [hr2])]
      | true =>
        rw [List.filter_cons_of_pos (by simp [hr2]), List.map_cons,
          List.filter_cons_of_neg (by simp [hpsr])]
    · have hfind2 : rs.find? (fun rb => idOf rb.1 == wid) = some x := by
        have := List.find?_cons_of_neg (p := fun rb => idOf rb.1 == wid) rs
          (by simpa using hid)
        rw [this] at hfind
        exact hfind
      have heq := ih x hnd_rs hfind2 hps
      rw [List.map_cons, if_neg hid]
      cases hr2 : r.2 with
      | false =>
        rw [List.filter_cons_of_neg (by simp [hr2]),
          List.filter_cons_of_neg (by simp [hr2])]
        exact heq
      | true =>
        rw [List.filter_cons_of_pos (by simp [hr2]),
          List.filter_cons_of_pos (by simp [hr2]), List.map_cons, List.map_cons]
        cases hpr : pS r.1 with
        | false =>
          rw [List.filter_cons_of_neg (by simp [hpr]),
            List.filter_cons_of_neg (by simp [hpr])]
          exact heq
        | true =>
          rw [List.filter_cons_of_pos (by simp [hpr]),
            List.filter_cons_of_pos (by simp [hpr]), heq]

/-- What a successful two-handed weapon validation guarantees: no other
equipped weapon and no equipped shield. -/
theorem validate_weapon_slots_ok_two_handed (s : EquipState) (w : Weapon)
    (h2 : w.hands_required = HandsRequired.two_handed)
    (hok : validate_weapon_slots s w = Except.ok ()) :
    (get_equipped_weapons s).filter (fun x => x.id ≠ w.id) = [] ∧
    (get_equipped_armor s).filter (fun a => a.type = ArmorType.shield) = [] := by
  unfold validate_weapon_slots at hok
  rw [if_pos h2] at hok
  by_cases hE : (get_equipped_weapons s).filter (fun x => x.id ≠ w.id) = []
  · rw [if_neg (not_not_intro hE)] at hok
    by_cases hS : (get_equipped_armor s).filter (fun a => a.type = ArmorType.shield) = []
    · exact ⟨hE, hS⟩
    · rw [if_pos hS] at hok
      exact absurd hok (by simp)
  · rw [if_pos hE] at hok
    exact absurd hok (by simp)

/-- What a successful one-handed weapon validation guarantees: no equipped
two-handed weapon among the other weapons, at most one other one-handed
weapon, and if there is one, no equipped shield. -/
theorem validate_weapon_slots_ok_one_handed (s : EquipState) (w : Weapon)
    (h1 : w.hands_required = HandsRequired.one_handed)
    (hok : validate_weapon_slots s w = Except.ok ()) :
    ((get_equipped_weapons s).filter (fun x => x.id ≠ w.id)).filter
      (fun x => x.hands_required = HandsRequired.two_handed) = [] ∧
    (((get_equipped_weapons s).filter (fun x => x.id ≠ w.id)).filter
      (fun x => x.hands_required = HandsRequired.one_handed)).length ≤ 1 ∧
    ((((get_equipped_weapons s).filter (fun x => x.id ≠ w.id)).filter
      (fun x => x.hands_required = HandsRequired.one_handed)).length = 1 →
      (get_equipped_armor s).filter (fun a => a.type = ArmorType.shield) = []) := by
  unfold validate_weapon_slots at hok
  rw [if_neg (by simp [h1])] at hok
  by_cases hT : ((get_equipped_weapons s).filter (fun x => x.id ≠ w.id)).filter
      (fun x => x.hands_required = HandsRequired.two_handed) = []
  · rw [if_neg (not_not_intro hT)] at hok
    by_cases hn : (((get_equipped_weapons s).filter (fun x => x.id ≠ w.id)).filter
        (fun x => x.hands_required = HandsRequired.one_handed)).length ≥ 2
    · rw [if_pos hn] at hok
      exact absurd hok (by simp)
    · rw [if_neg hn] at hok
      by_cases hc : (((get_equipped_weapons s).filter (fun x => x.id ≠ w.id)).filter
          (fun x => x.hands_required = HandsRequired.one_handed)).length = 1 ∧
          (get_equipped_armor s).filter (fun a => a.type = ArmorType.shield) ≠ []
      · rw [if_pos hc] at hok
        exact absurd hok (by simp)
      · rw [if_neg hc] at hok
        refine ⟨hT, by omega, ?_⟩
        intro hlen
        by_contra hS
        exact hc ⟨hlen, hS⟩
  · rw [if_pos hT] at hok
    exact absurd hok (by simp)

/-- What a successful shield validation guarantees: no equipped two-handed
weapon and at most one equipped one-handed weapon. Note that it says
nothing about already-equipped shields. -/
theorem validate_shield_slots_ok (s : EquipState)
    (hok : validate_shield_slots s = Except.ok ()) :
    numTwoHanded s = 0 ∧ numOneHanded s ≤ 1 := by
  unfold validate_shield_slots at hok
  by_cases hW : get_equipped_weapons s = []
  · unfold numTwoHanded numOneHanded
    rw [hW]
    simp
  · rw [if_neg hW] at hok
    by_cases hT : (get_equipped_weapons s).filter
        (fun w => w.hands_required = HandsRequired.two_handed) = []
    · rw [if_neg (not_not_intro hT)] at hok
      by_cases hn : ((get_equipped_weapons s).filter
          (fun w => w.hands_required = HandsRequired.one_handed)).length ≥ 2
      · rw [if_pos hn] at hok
        exact absurd hok (by simp)
      · constructor
        · unfold numTwoHanded
          rw [hT]
          rfl
        · unfold numOneHanded
          omega
    · rw [if_pos hT] at hok
      exact absurd hok (by simp)

/-- Setting an equipped flag can only turn flags on: every row equipped
before stays equipped. -/
theorem setEquipped_keeps_equipped {α : Type} (idOf : α → Nat)
    (rows : List (α × Bool)) (wid : Nat) (rb : α × Bool)
    (hmem : rb ∈ rows) (ht : rb.2 = true) :
    (rb.1, true) ∈ rows.map (fun x => if idOf x.1 = wid then (x.1, true) else x) := by
  have hmem3 := List.mem_map_of_mem
    (fun x => if idOf x.1 = wid then (x.1, true) else x) hmem
  by_cases hcase : idOf rb.1 = wid
  · simp only [if_pos hcase] at hmem3
    exact hmem3
  · simp only [if_neg hcase] at hmem3
    have heta : (rb.1, true) = rb := by rw [← ht]
    exact heta ▸ hmem3

/-- Claim C4 (amended): `equip_weapon` / `equip_armor` validate hand slots
before mutating and only then set the equipped flag — a successful equip
never silently unequips anything and leaves the other table untouched —
and every success preserves the invariant the validators enforce: at most
one two-handed weapon, which excludes all other weapons and all shields;
at most two one-handed weapons; and two one-handed weapons exclude any
shield. (The shield count itself is not validated, so the full claimed
two-unit hand budget can still be exceeded via extra shields; see the
accompanying counterexample.) -/
theorem equip_ops_hand_slot_validation (s : EquipState) (iid : Nat)
    (hw : (s.weapons.map (fun wb => wb.1.id)).Nodup)
    (ha : (s.armors.map (fun ab => ab.1.id)).Nodup)
    (hinv : codeHandInvariant s) :
    (∀ s1, equip_weapon s iid = Except.ok s1 →
      codeHandInvariant s1 ∧ s1.armors = s.armors ∧
        ∀ wb ∈ s.weapons, wb.2 = true → (wb.1, true) ∈ s1.weapons) ∧
    (∀ s1, equip_armor s iid = Except.ok s1 →
      codeHandInvariant s1 ∧ s1.weapons = s.weapons ∧
        ∀ ab ∈ s.armors, ab.2 = true → (ab.1, true) ∈ s1.armors) := by
  constructor
  · intro s1 hok
    unfold equip_weapon at hok
    rcases hfind : s.weapons.find? (fun wb => wb.1.id == iid) with _ | wb
    · rw [hfind] at hok
      exact absurd hok (by simp)
    · rw [hfind] at hok
      dsimp only [] at hok
      rcases hval : validate_weapon_slots s wb.1 with e | ⟨⟩
      · rw [hval] at hok
        simp at hok
      · rw [hval] at hok
        simp only [Except.ok.injEq] at hok
        subst hok
        have hid : wb.1.id = iid := by
          have := List.find?_some hfind
          simpa using this
        subst hid
        have hpermW : List.Perm (get_equipped_weapons (setWeaponEquipped s wb.1.id))
            (wb.1 :: ((get_equipped_weapons s).filter (fun x => x.id ≠ wb.1.id))) :=
          equipped_after_set_perm (fun x : Weapon => x.id) wb.1.id s.weapons wb hw hfind
        have hnS : numShields (setWeaponEquipped s wb.1.id) = numShields s := rfl
        have hn2 : numTwoHanded (setWeaponEquipped s wb.1.id) =
            ((wb.1 :: ((get_equipped_weapons s).filter (fun x => x.id ≠ wb.1.id))).filter
              (fun x => x.hands_required = HandsRequired.two_handed)).length :=
          (hpermW.filter _).length_eq
        have hn1 : numOneHanded (setWeaponEquipped s wb.1.id) =
            ((wb.1 :: ((get_equipped_weapons s).filter (fun x => x.id ≠ wb.1.id))).filter
              (fun x => x.hands_required = HandsRequired.one_handed)).length :=
          (hpermW.filter _).length_eq
        refine ⟨?_, rfl, ?_⟩
        · cases hh : wb.1.hands_required with
          | two_handed =>
            obtain ⟨hE, hS⟩ := validate_weapon_slots_ok_two_handed s wb.1 hh hval
            rw [hE] at hn2 hn1
            rw [List.filter_cons_of_pos (by simp [hh])] at hn2
            rw [List.filter_cons_of_neg (by simp [hh])] at hn1
            simp only [List.filter_nil, List.length_cons, List.length_nil] at hn2 hn1
            have hS0 : numShields s = 0 := by
              unfold numShields
              rw [hS]
              rfl
            refine ⟨Or.inr ⟨hn2, hn1, ?_⟩, by omega, by omega⟩
            rw [hnS]
            exact hS0
          | one_handed =>
            obtain ⟨hT, hle, himp⟩ := validate_weapon_slots_ok_one_handed s wb.1 hh hval
            rw [List.filter_cons_of_neg (by simp [hh]), hT] at hn2
            rw [List.filter_cons_of_pos (by simp [hh]), List.length_cons] at hn1
            simp only [List.length_nil] at hn2
            refine ⟨Or.inl hn2, by omega, ?_⟩
            intro h2c
            have hlen1 : (((get_equipped_weapons s).filter (fun x => x.id ≠ wb.1.id)).filter
                (fun x => x.hands_required = HandsRequired.one_handed)).length = 1 := by
              omega
            have hS := himp hlen1
            rw [hnS]
            unfold numShields
            rw [hS]
            rfl
        · intro wb2 hmem2 htrue
          exact setEquipped_keeps_equipped (fun x : Weapon => x.id) s.weapons wb.1.id
            wb2 hmem2 htrue
  · intro s1 hok
    unfold equip_armor at hok
    rcases hfindA : s.armors.find? (fun ab => ab.1.id == iid) with _ | ab
    · rw [hfindA] at hok
      exact absurd hok (by simp)
    · rw [hfindA] at hok
      dsimp only [] at hok
      have hidA : ab.1.id = iid := by
        have := List.find?_some hfindA
        simpa using this
      subst hidA
      by_cases hst : ab.1.type = ArmorType.shield
      · rw [if_pos hst] at hok
        rcases hvalS : validate_shield_slots s with e | ⟨⟩
        · rw [hvalS] at hok
          exact absurd hok (by simp)
        · rw [hvalS] at hok
          simp only [Except.ok.injEq] at hok
          subst hok
          obtain ⟨h20, h1le⟩ := validate_shield_slots_ok s hvalS
          have e2 : numTwoHanded (setArmorEquipped s ab.1.id) = numTwoHanded s := rfl
          have e1 : numOneHanded (setArmorEquipped s ab.1.id) = numOneHanded s := rfl
          refine ⟨⟨Or.inl (by omega), by omega, by omega⟩, rfl, ?_⟩
          intro ab2 hmem2 htrue
          exact setEquipped_keeps_equipped (fun x : Armor => x.id) s.armors ab.1.id
            ab2 hmem2 htrue
      · rw [if_neg hst] at hok
        simp only [Except.ok.injEq] at hok
        subst hok
        have e2 : numTwoHanded (setArmorEquipped s ab.1.id) = numTwoHanded s := rfl
        have e1 : numOneHanded (setArmorEquipped s ab.1.id) = numOneHanded s := rfl
        have eS : numShields (setArmorEquipped s ab.1.id) = numShields s := by
          unfold numShields
          exact congrArg List.length
            (equipped_filter_after_set_of_not_pred (fun a : Armor => a.id) ab.1.id
              (fun a => decide (a.type = ArmorType.shield)) s.armors ab ha hfindA
              (by simp [hst]))
        obtain ⟨hd, hle2, himp2⟩ := hinv
        refine ⟨⟨?_, by omega, ?_⟩, rfl, ?_⟩
        · rcases hd with h | ⟨x, y, z⟩
          · exact Or.inl (by omega)
          · exact Or.inr ⟨by omega, by omega, by rw [eS]; exact z⟩
        · intro h2c
          rw [eS]
          exact himp2 (by omega)
        · intro ab2 hmem2 htrue
          exact setEquipped_keeps_equipped (fun x : Armor => x.id) s.armors ab.1.id
            ab2 hmem2 htrue

/-- Witness for the amended C4 at a concrete input: with one one-handed
sword equipped, equipping a shield succeeds and the resulting equipped set
still satisfies the validators' invariant. -/
theorem equip_ops_hand_slot_validation_witness :
    codeHandInvariant
      { weapons := [({ id := 1, name := "sword", type := WeaponType.melee, hands_required := HandsRequired.one_handed, damage_dice_count := 1, damage_dice_sides := "d8" }, true)],
        armors := [({ id := 1, name := "buckler", type := ArmorType.shield, ac := 2 }, true)] } :=
  ((equip_ops_hand_slot_validation
    { weapons := [({ id := 1, name := "sword", type := WeaponType.melee, hands_required := HandsRequired.one_handed, damage_dice_count := 1, damage_dice_sides := "d8" }, true)],
      armors := [({ id := 1, name := "buckler", type := ArmorType.shield, ac := 2 }, false)] } 1 (by decide) (by decide) (by decide)).2
    { weapons := [({ id := 1, name := "sword", type := WeaponType.melee, hands_required := HandsRequired.one_handed, damage_dice_count := 1, damage_dice_sides := "d8" }, true)],
      armors := [({ id := 1, name := "buckler", type := ArmorType.shield, ac := 2 }, true)] } rfl).1

/-- Counterexample to C4 as stated: from a state satisfying the claimed
two-unit hand budget (a one-handed sword plus one shield equipped),
equipping a second shield succeeds — `_validate_shield_slots` never counts
already-equipped shields — and the resulting equipped set (one one-handed
weapon and two shields, three hand units) violates the claimed budget. -/
theorem equip_second_shield_exceeds_hand_budget :
    claimedHandBudget
      { weapons := [({ id := 1, name := "sword", type := WeaponType.melee, hands_required := HandsRequired.one_handed, damage_dice_count := 1, damage_dice_sides := "d8" }, true)],
        armors := [({ id := 1, name := "shield one", type := ArmorType.shield, ac := 2 }, true),
          ({ id := 2, name := "shield two", type := ArmorType.shield, ac := 2 }, false)] } ∧
    equip_armor
      { weapons := [({ id := 1, name := "sword", type := WeaponType.melee, hands_required := HandsRequired.one_handed, damage_dice_count := 1, damage_dice_sides := "d8" }, true)],
        armors := [({ id := 1, name := "shield one", type := ArmorType.shield, ac := 2 }, true),
          ({ id := 2, name := "shield two", type := ArmorType.shield, ac := 2 }, false)] } 2 =
      Except.ok
        { weapons := [({ id := 1, name := "sword", type := WeaponType.melee, hands_required := HandsRequired.one_handed, damage_dice_count := 1, damage_dice_sides := "d8" }, true)],
          armors := [({ id := 1, name := "shield one", type := ArmorType.shield, ac := 2 }, true),
            ({ id := 2, name := "shield two", type := ArmorType.shield, ac := 2 }, true)] } ∧
    ¬ claimedHandBudget
      { weapons := [({ id := 1, name := "sword", type := WeaponType.melee, hands_required := HandsRequired.one_handed, damage_dice_count := 1, damage_dice_sides := "d8" }, true)],
        armors := [({ id := 1, name := "shield one", type := ArmorType.shield, ac := 2 }, true),
          ({ id := 2, name := "shield two", type := ArmorType.shield, ac := 2 }, true)] } :=
  ⟨by decide, rfl, by decide⟩

/-! ## Support lemmas for the attack tools. -/

/-- An id lookup that succeeds returns a member row carrying that id. -/
theorem npcGetById_mem {npcs : List NPCm} {i : Nat} {n : NPCm}
    (h : npcGetById npcs i = some n) : n ∈ npcs ∧ n.id = i := by
  unfold npcGetById at h
  exact ⟨List.mem_of_find?_eq_some h, by simpa using List.find?_some h⟩

/-- With distinct ids, looking up a member's id finds exactly that member. -/
theorem npcGetById_of_mem_nodup {npcs : List NPCm} {n : NPCm}
    (hnd : (npcs.map NPCm.id).Nodup) (hm : n ∈ npcs) :
    npcGetById npcs n.id = some n := by
  induction npcs with
  | nil => cases hm
  | cons m ms ih =>
    rw [List.map_cons, List.nodup_cons] at hnd
    rcases List.mem_cons.mp hm with rfl | hm2
    · unfold npcGetById
      rw [List.find?_cons_of_pos _ (by simp)]
    · have hne : m.id ≠ n.id := fun he =>
        hnd.1 (he ▸ List.mem_map_of_mem NPCm.id hm2)
      unfold npcGetById at ih ⊢
      rw [List.find?_cons_of_neg _ (by simpa using hne)]
      exact ih hnd.2 hm2

/-- Every row of the HP update either is an untouched row of a different
id or arises from a row with the updated id by replacing its HP. -/
theorem mem_update_npc_hp {npcs : List NPCm} {i : Nat} {hp : Int} {n2 : NPCm}
    (h : n2 ∈ update_npc_hp npcs i hp) :
    (n2 ∈ npcs ∧ n2.id ≠ i) ∨
      (∃ n, n ∈ npcs ∧ n.id = i ∧ n2 = { n with hp := hp }) := by
  unfold update_npc_hp at h
  rcases List.mem_map.mp h with ⟨n, hn, heq⟩
  by_cases hid : n.id = i
  · right
    refine ⟨n, hn, hid, ?_⟩
    rw [← heq, if_pos hid]
  · left
    rw [if_neg hid] at heq
    subst heq
    exact ⟨hn, hid⟩

/-- With distinct ids, the HP update rewrites exactly the looked-up row. -/
theorem npcGetById_update_self {npcs : List NPCm} {n : NPCm} {hp : Int}
    (hnd : (npcs.map NPCm.id).Nodup) (hm : n ∈ npcs) :
    npcGetById (update_npc_hp npcs n.id hp) n.id = some { n with hp := hp } := by
  induction npcs with
  | nil => cases hm
  | cons m ms ih =>
    rw [List.map_cons, List.nodup_cons] at hnd
    rcases List.mem_cons.mp hm with rfl | hm2
    · unfold update_npc_hp npcGetById
      rw [List.map_cons, if_pos rfl]
      rw [List.find?_cons_of_pos _ (by simp)]
    · have hne : m.id ≠ n.id := fun he =>
        hnd.1 (he ▸ List.mem_map_of_mem NPCm.id hm2)
      unfold update_npc_hp npcGetById at ih ⊢
      rw [List.map_cons, if_neg hne]
      rw [List.find?_cons_of_neg _ (by simpa using hne)]
      exact ih hnd.2 hm2

/-- Every row of the participant-activity update either is an untouched row
with a different npc id or arises from a row with the updated npc id by
replacing its active flag. -/
theorem mem_update_participant_is_active {ps : List Participant} {i : Nat}
    {b : Bool} {p2 : Participant}
    (h : p2 ∈ update_participant_is_active ps i b) :
    (p2 ∈ ps ∧ p2.npc_id ≠ some i) ∨
      (∃ p, p ∈ ps ∧ p.npc_id = some i ∧ p2 = { p with is_active := b }) := by
  unfold update_participant_is_active at h
  rcases List.mem_map.mp h with ⟨p, hp, heq⟩
  by_cases hid : p.npc_id = some i
  · right
    refine ⟨p, hp, hid, ?_⟩
    rw [← heq, if_pos hid]
  · left
    rw [if_neg hid] at heq
    subst heq
    exact ⟨hp, hid⟩

/-- A truthy optional foreign key is a nonzero some. -/
theorem optTruthy_eq_some {o : Option Nat} (h : optTruthy o = true) :
    o = some (o.getD 0) := by
  cases o with
  | none => simp [optTruthy] at h
  | some k => rfl

/-- The NPC-attack target search only guarantees that the returned NPC is
a row of the table whose name matches — it checks neither activity nor
disposition. -/
theorem npcAttackFindTarget_sound {npcs : List NPCm} {tname : String}
    {ps : List Participant} {npc : NPCm}
    (h : npcAttackFindTarget npcs tname ps = some npc) :
    npc ∈ npcs ∧ pyLower npc.name = pyLower tname := by
  induction ps with
  | nil => simp [npcAttackFindTarget] at h
  | cons p rest ih =>
    unfold npcAttackFindTarget at h
    split at h
    · split at h
      · rename_i npc2 hget
        split at h
        · rename_i hname
          cases h
          exact ⟨(npcGetById_mem hget).1, by simpa using hname⟩
        · exact ih h
      · exact ih h
    · exact ih h

/-- The player-attack target search only returns active hostile NPC
participants of the battle whose name matches. -/
theorem playerFindTarget_sound {npcs : List NPCm} {tname : String}
    {ps : List Participant} {npc : NPCm}
    (h : playerFindTarget npcs tname ps = Except.ok (some npc)) :
    npc ∈ npcs ∧ npc.disposition = Disposition.hostile ∧
      ∃ p, p ∈ ps ∧ p.is_active = true ∧ p.npc_id = some npc.id ∧
        pyLower npc.name = pyLower tname := by
  induction ps with
  | nil => simp [playerFindTarget] at h
  | cons p rest ih =>
    unfold playerFindTarget at h
    split at h
    · rename_i hcond
      split at h
      · rename_i npc2 hget
        split at h
        · rename_i hname
          split at h
          · simp at h
          · rename_i hdisp
            cases h
            rw [Bool.and_eq_true] at hcond
            have hgm := npcGetById_mem hget
            refine ⟨hgm.1, not_not.mp hdisp, p, List.mem_cons_self p rest,
              hcond.2, ?_, by simpa using hname⟩
            rw [optTruthy_eq_some hcond.1, hgm.2]
        · rcases ih h with ⟨h1, h2, q, hq, rest2⟩
          exact ⟨h1, h2, q, List.mem_cons_of_mem p hq, rest2⟩
      · rcases ih h with ⟨h1, h2, q, hq, rest2⟩
        exact ⟨h1, h2, q, List.mem_cons_of_mem p hq, rest2⟩
    · rcases ih h with ⟨h1, h2, q, hq, rest2⟩
      exact ⟨h1, h2, q, List.mem_cons_of_mem p hq, rest2⟩

/-- Clamped damage keeps HP inside [0, max]: for HP in [0, m], the value
max(0, hp − damage) is again in [0, m]. -/
theorem clamp_bounds {a m : Int} (d : Nat) (h0 : 0 ≤ a) (hm : a ≤ m) :
    0 ≤ max 0 (a - (d : Int)) ∧ max 0 (a - (d : Int)) ≤ m :=
  ⟨le_max_left 0 _, max_le (le_trans h0 hm) (by omega)⟩

/-- Damage application on the player keeps the HP invariant: the new HP is
clamped into [0, old HP] ⊆ [0, max_hp], and no NPC or participant row is
touched. -/
theorem hpInvariant_npcAttackApplyToPlayer (att : NPCm) (is_hit : Bool)
    (damage : Nat) (s : CombatState) (hinv : hpInvariant s) :
    hpInvariant (npcAttackApplyToPlayer att is_hit damage s).1 := by
  unfold npcAttackApplyToPlayer
  split
  · obtain ⟨⟨hp0, hpm⟩, hn⟩ := hinv
    dsimp only
    split
    all_goals
      dsimp only
      exact ⟨clamp_bounds damage hp0 hpm, hn⟩
  · exact hinv

/-- Damage application on an NPC target keeps the HP invariant: the new HP
is clamped into [0, old HP] ⊆ [0, max_hp], and when it reaches 0 every
participant row of that NPC is deactivated. -/
theorem hpInvariant_npcAttackApplyToNpc (att target : NPCm) (tname : String)
    (is_hit : Bool) (damage : Nat) (s : CombatState)
    (hnd : (s.npcs.map NPCm.id).Nodup) (hmem : target ∈ s.npcs)
    (hinv : hpInvariant s) :
    hpInvariant (npcAttackApplyToNpc att target tname is_hit damage s).1 := by
  unfold npcAttackApplyToNpc
  split
  · obtain ⟨hpl, hn⟩ := hinv
    have htb := hn target hmem
    dsimp only
    split
    · rename_i hz
      dsimp only
      refine ⟨hpl, ?_⟩
      intro n2 hn2
      rcases mem_update_npc_hp hn2 with ⟨hmem2, _⟩ | ⟨n, hnmem, hnid, rfl⟩
      · refine ⟨(hn n2 hmem2).1, ?_⟩
        intro h0 p2 hp2 hpid
        rcases mem_update_participant_is_active hp2 with ⟨hpmem, hpne⟩ |
          ⟨p, hpmem, hpid2, rfl⟩
        · exact (hn n2 hmem2).2 h0 p2 hpmem hpid
        · rfl
      · have hnt : n = target :=
          List.inj_on_of_nodup_map hnd hnmem hmem (by rw [hnid])
        subst hnt
        refine ⟨clamp_bounds damage htb.1.1 htb.1.2, ?_⟩
        intro _ p2 hp2 hpid
        rcases mem_update_participant_is_active hp2 with ⟨hpmem, hpne⟩ |
          ⟨p, hpmem, hpid2, rfl⟩
        · exact absurd hpid (by rw [hnid]; exact hpne)
        · rfl
    · rename_i hz
      dsimp only
      refine ⟨hpl, ?_⟩
      intro n2 hn2
      rcases mem_update_npc_hp hn2 with ⟨hmem2, _⟩ | ⟨n, hnmem, hnid, rfl⟩
      · exact hn n2 hmem2
      · have hnt : n = target :=
          List.inj_on_of_nodup_map hnd hnmem hmem (by rw [hnid])
        subst hnt
        refine ⟨clamp_bounds damage htb.1.1 htb.1.2, ?_⟩
        intro h0
        exact absurd h0 hz
  · exact hinv

/-- The player's damage application keeps the HP invariant: target HP is
clamped, a kill deactivates the target's participant rows, and the XP and
level updates leave every HP field untouched. -/
theorem hpInvariant_playerAttackApply (target : NPCm) (is_hit : Bool)
    (damage : Nat) (s : CombatState)
    (hnd : (s.npcs.map NPCm.id).Nodup) (hmem : target ∈ s.npcs)
    (hinv : hpInvariant s) :
    hpInvariant (playerAttackApply target is_hit damage s).1 := by
  unfold playerAttackApply
  split
  · obtain ⟨hpl, hn⟩ := hinv
    have htb := hn target hmem
    dsimp only
    split
    · rename_i hz
      dsimp only
      refine ⟨hpl, ?_⟩
      intro n2 hn2
      rcases mem_update_npc_hp hn2 with ⟨hmem2, _⟩ | ⟨n, hnmem, hnid, rfl⟩
      · refine ⟨(hn n2 hmem2).1, ?_⟩
        intro h0 p2 hp2 hpid
        rcases mem_update_participant_is_active hp2 with ⟨hpmem, hpne⟩ |
          ⟨p, hpmem, hpid2, rfl⟩
        · exact (hn n2 hmem2).2 h0 p2 hpmem hpid
        · rfl
      · have hnt : n = target :=
          List.inj_on_of_nodup_map hnd hnmem hmem (by rw [hnid])
        subst hnt
        refine ⟨clamp_bounds damage htb.1.1 htb.1.2, ?_⟩
        intro _ p2 hp2 hpid
        rcases mem_update_participant_is_active hp2 with ⟨hpmem, hpne⟩ |
          ⟨p, hpmem, hpid2, rfl⟩
        · exact absurd hpid (by rw [hnid]; exact hpne)
        · rfl
    · rename_i hz
      dsimp only
      refine ⟨hpl, ?_⟩
      intro n2 hn2
      rcases mem_update_npc_hp hn2 with ⟨hmem2, _⟩ | ⟨n, hnmem, hnid, rfl⟩
      · exact hn n2 hmem2
      · have hnt : n = target :=
          List.inj_on_of_nodup_map hnd hnmem hmem (by rw [hnid])
        subst hnt
        refine ⟨clamp_bounds damage htb.1.1 htb.1.2, ?_⟩
        intro h0
        exact absurd h0 hz
  · exact hinv

/-! ## Claim C3 — HP clamping, miss immutability, death deactivation. -/

/-- Claim C3: attack damage never drives HP below zero. An NPC attack that
hits the player for positive damage sets the player's HP to
max(0, old − damage); a player attack that hits its NPC target for
positive damage sets the target's HP to max(0, old − damage) and, when
that reaches 0, marks every participant row of that NPC inactive; an
attack that misses (or deals no damage) leaves the state unchanged; and
both attack operations preserve the HP invariant — player and NPC HP stay
in [0, max_hp] and an NPC at 0 HP has its participant rows inactive. -/
theorem attack_damage_hp_clamped (s : CombatState) (aid : Nat)
    (wname tname : String) (d20 : Int) (rolls : Nat → Nat)
    (hnd : (s.npcs.map NPCm.id).Nodup) (hinv : hpInvariant s) :
    hpInvariant (npc_attack_execute aid tname d20 rolls s).1 ∧
    hpInvariant (player_attack_execute wname tname d20 rolls s).1 ∧
    (∀ att hit crit dmg, npcGetById s.npcs aid = some att →
      (pyLower tname == pyLower s.player.name) = true →
      roll_attack d20 att.attack_mod
        (calculate_player_ac s.player s.equipped_armor) =
        (d20, d20 + att.attack_mod, hit, crit) →
      roll_damage rolls att.damage_dice_count att.damage_dice_sides crit = dmg →
      (hit = true ∧ 0 < dmg →
        (npc_attack_execute aid tname d20 rolls s).1.player.hp =
          max 0 (s.player.hp - (dmg : Int))) ∧
      (¬(hit = true ∧ 0 < dmg) →
        (npc_attack_execute aid tname d20 rolls s).1 = s)) ∧
    (∀ w tgt a t hit dmg, findEquippedWeapon s.equipped_weapons wname = some w →
      playerFindTarget s.npcs tname s.participants = Except.ok (some tgt) →
      display_player_attack_interactive
        (if w.type = WeaponType.melee then
          calculate_ability_modifier s.player.strength
        else calculate_ability_modifier s.player.dexterity)
        tgt.ac w.damage_dice_count d20 rolls = (a, t, hit, dmg) →
      (hit = true ∧ 0 < dmg →
        npcGetById (player_attack_execute wname tname d20 rolls s).1.npcs tgt.id =
          some { tgt with hp := max 0 (tgt.hp - (dmg : Int)) } ∧
        (max 0 (tgt.hp - (dmg : Int)) = 0 →
          ∀ p ∈ (player_attack_execute wname tname d20 rolls s).1.participants,
            p.npc_id = some tgt.id → p.is_active = false)) ∧
      (¬(hit = true ∧ 0 < dmg) →
        (player_attack_execute wname tname d20 rolls s).1 = s)) := by
  refine ⟨?_, ?_, ?_, ?_⟩
  · unfold npc_attack_execute
    cases hatt : npcGetById s.npcs aid with
    | none => exact hinv
    | some att =>
      dsimp only
      split
      · exact hpInvariant_npcAttackApplyToPlayer att _ _ s hinv
      · cases hfindT : npcAttackFindTarget s.npcs tname s.participants with
        | none => exact hinv
        | some tgt =>
          exact hpInvariant_npcAttackApplyToNpc att tgt tname _ _ s hnd
            (npcAttackFindTarget_sound hfindT).1 hinv
  · unfold player_attack_execute
    cases hfw : findEquippedWeapon s.equipped_weapons wname with
    | none => exact hinv
    | some w =>
      dsimp only
      cases hft : playerFindTarget s.npcs tname s.participants with
      | error e => exact hinv
      | ok o =>
        cases o with
        | none => exact hinv
        | some tgt =>
          exact hpInvariant_playerAttackApply tgt _ _ s hnd
            (playerFindTarget_sound hft).1 hinv
  · intro att hit crit dmg hatt hname hroll hdmg
    unfold npc_attack_execute
    rw [hatt]
    dsimp only
    rw [hname]
    rw [if_pos rfl, hroll]
    dsimp only
    constructor
    · intro hcc
      obtain ⟨hh, hd⟩ := hcc
      subst hh
      rw [if_pos rfl, hdmg]
      unfold npcAttackApplyToPlayer
      rw [if_pos ⟨rfl, hd⟩]
      dsimp only
      split <;> rfl
    · intro hcond
      cases hh : hit with
      | false =>
        subst hh
        rw [if_neg (by simp)]
        unfold npcAttackApplyToPlayer
        rw [if_neg (by simp)]
      | true =>
        subst hh
        rw [if_pos rfl, hdmg]
        unfold npcAttackApplyToPlayer
        rw [if_neg (by intro hc; exact hcond ⟨rfl, hc.2⟩)]
  · intro w tgt a t hit dmg hfw hft hdisp
    have hsound := playerFindTarget_sound hft
    unfold player_attack_execute
    rw [hfw]
    dsimp only
    rw [hft]
    dsimp only
    rw [hdisp]
    dsimp only
    constructor
    · intro hcc
      obtain ⟨hh, hd⟩ := hcc
      subst hh
      unfold playerAttackApply
      rw [if_pos ⟨rfl, hd⟩]
      dsimp only
      split
      · constructor
        · exact npcGetById_update_self hnd hsound.1
        · intro _ p2 hp2 hpid
          rcases mem_update_participant_is_active hp2 with ⟨hpmem, hpne⟩ |
            ⟨p, hpmem, hpid2, rfl⟩
          · exact absurd hpid hpne
          · rfl
      · rename_i hz
        constructor
        · exact npcGetById_update_self hnd hsound.1
        · intro h0
          exact absurd h0 hz
    · intro hcond
      cases hh : hit with
      | false =>
        subst hh
        unfold playerAttackApply
        rw [if_neg (by simp)]
      | true =>
        subst hh
        unfold playerAttackApply
        rw [if_neg (by intro hc; exact hcond ⟨rfl, hc.2⟩)]

/-- Witness for C3 at a concrete battle: a goblin critically hitting the
player keeps the HP invariant, and the player critically killing the
goblin (5 HP, 6 damage) clamps its HP to exactly 0. -/
theorem attack_damage_hp_clamped_witness :
    hpInvariant (npc_attack_execute 1 "hero" 20 (fun _ => 3)
      { player := { id := 1, name := "hero", hp := 10, max_hp := 10, xp := 0, gold := 0, level := 1, strength := 14, dexterity := 12, constitution := 10, intelligence := 10, wisdom := 10, charisma := 10 },
        npcs := [{ id := 1, name := "goblin", hp := 5, max_hp := 5, ac := 10, disposition := Disposition.hostile, attack_mod := 2, initiative_mod := 1, damage_dice_count := 1, damage_dice_sides := "d6", xp := 10, gold := 7 }],
        participants := [{ battle_id := 1, npc_id := none, player_id := some 1, turn_order := some 1, is_active := true, initiative_roll := some 12 }, { battle_id := 1, npc_id := some 1, player_id := none, turn_order := some 2, is_active := true, initiative_roll := some 8 }],
        battle_id := 1,
        equipped_weapons := [{ id := 1, name := "sword", type := WeaponType.melee, hands_required := HandsRequired.one_handed, damage_dice_count := 1, damage_dice_sides := "d8" }],
        equipped_armor := [],
        pending_level_up := false }).1 ∧
    npcGetById (player_attack_execute "sword" "goblin" 20 (fun _ => 3)
      { player := { id := 1, name := "hero", hp := 10, max_hp := 10, xp := 0, gold := 0, level := 1, strength := 14, dexterity := 12, constitution := 10, intelligence := 10, wisdom := 10, charisma := 10 },
        npcs := [{ id := 1, name := "goblin", hp := 5, max_hp := 5, ac := 10, disposition := Disposition.hostile, attack_mod := 2, initiative_mod := 1, damage_dice_count := 1, damage_dice_sides := "d6", xp := 10, gold := 7 }],
        participants := [{ battle_id := 1, npc_id := none, player_id := some 1, turn_order := some 1, is_active := true, initiative_roll := some 12 }, { battle_id := 1, npc_id := some 1, player_id := none, turn_order := some 2, is_active := true, initiative_roll := some 8 }],
        battle_id := 1,
        equipped_weapons := [{ id := 1, name := "sword", type := WeaponType.melee, hands_required := HandsRequired.one_handed, damage_dice_count := 1, damage_dice_sides := "d8" }],
        equipped_armor := [],
        pending_level_up := false }).1.npcs 1 =
      some { id := 1, name := "goblin", hp := 0, max_hp := 5, ac := 10, disposition := Disposition.hostile, attack_mod := 2, initiative_mod := 1, damage_dice_count := 1, damage_dice_sides := "d6", xp := 10, gold := 7 } := by
  have h := attack_damage_hp_clamped
    { player := { id := 1, name := "hero", hp := 10, max_hp := 10, xp := 0, gold := 0, level := 1, strength := 14, dexterity := 12, constitution := 10, intelligence := 10, wisdom := 10, charisma := 10 },
      npcs := [{ id := 1, name := "goblin", hp := 5, max_hp := 5, ac := 10, disposition := Disposition.hostile, attack_mod := 2, initiative_mod := 1, damage_dice_count := 1, damage_dice_sides := "d6", xp := 10, gold := 7 }],
      participants := [{ battle_id := 1, npc_id := none, player_id := some 1, turn_order := some 1, is_active := true, initiative_roll := some 12 }, { battle_id := 1, npc_id := some 1, player_id := none, turn_order := some 2, is_active := true, initiative_roll := some 8 }],
      battle_id := 1,
      equipped_weapons := [{ id := 1, name := "sword", type := WeaponType.melee, hands_required := HandsRequired.one_handed, damage_dice_count := 1, damage_dice_sides := "d8" }],
      equipped_armor := [],
      pending_level_up := false }
    1 "sword" "hero" 20 (fun _ => 3) (by decide) (by decide)
  have h2 := attack_damage_hp_clamped
    { player := { id := 1, name := "hero", hp := 10, max_hp := 10, xp := 0, gold := 0, level := 1, strength := 14, dexterity := 12, constitution := 10, intelligence := 10, wisdom := 10, charisma := 10 },
      npcs := [{ id := 1, name := "goblin", hp := 5, max_hp := 5, ac := 10, disposition := Disposition.hostile, attack_mod := 2, initiative_mod := 1, damage_dice_count := 1, damage_dice_sides := "d6", xp := 10, gold := 7 }],
      participants := [{ battle_id := 1, npc_id := none, player_id := some 1, turn_order := some 1, is_active := true, initiative_roll := some 12 }, { battle_id := 1, npc_id := some 1, player_id := none, turn_order := some 2, is_active := true, initiative_roll := some 8 }],
      battle_id := 1,
      equipped_weapons := [{ id := 1, name := "sword", type := WeaponType.melee, hands_required := HandsRequired.one_handed, damage_dice_count := 1, damage_dice_sides := "d8" }],
      equipped_armor := [],
      pending_level_up := false }
    1 "sword" "goblin" 20 (fun _ => 3) (by decide) (by decide)
  refine ⟨h.1, ?_⟩
  have h4 := (h2.2.2.2
    { id := 1, name := "sword", type := WeaponType.melee, hands_required := HandsRequired.one_handed, damage_dice_count := 1, damage_dice_sides := "d8" }
    { id := 1, name := "goblin", hp := 5, max_hp := 5, ac := 10, disposition := Disposition.hostile, attack_mod := 2, initiative_mod := 1, damage_dice_count := 1, damage_dice_sides := "d6", xp := 10, gold := 7 }
    20 22 true 6 rfl rfl (by decide)).1 ⟨rfl, by decide⟩
  exact h4.1.trans (by decide)

/-! ## Claim C6 — gold is credited once, at victory, never per kill. -/

/-- Folding an accumulated sum equals adding the mapped sum. -/
theorem foldl_add_map_sum {α : Type} (f : α → Int) :
    ∀ (l : List α) (acc : Int),
      l.foldl (fun a x => a + f x) acc = acc + (l.map f).sum := by
  intro l
  induction l with
  | nil => intro acc; simp
  | cons x xs ih =>
    intro acc
    rw [List.foldl_cons, List.map_cons, List.sum_cons, ih]
    ring

/-- Every participant's victory-gold contribution is nonnegative when all
NPC gold rewards are. -/
theorem victoryGoldOf_nonneg {npcs : List NPCm}
    (hgold : ∀ n ∈ npcs, 0 ≤ n.gold) (p : Participant) :
    0 ≤ victoryGoldOf npcs p := by
  unfold victoryGoldOf
  cases p.npc_id with
  | none => exact le_refl (0 : Int)
  | some i =>
    dsimp only
    rcases hg : npcGetById npcs i with _ | npc
    · exact le_refl (0 : Int)
    · dsimp only
      split
      · exact hgold npc (npcGetById_mem hg).1
      · exact le_refl (0 : Int)

/-- Claim C6: gold is credited to the player exactly once, at victory, as
the sum of the gold of the battle's hostile NPCs at 0 HP or below: a
player attack — kill included — never changes the player's gold, while a
kill awards the victim's XP immediately and recomputes the level; the
single victory handler adds exactly the defeated-hostile gold sum. -/
theorem gold_credited_once_at_victory (s : CombatState) (wname tname : String)
    (d20 : Int) (rolls : Nat → Nat) (hgold : ∀ n ∈ s.npcs, 0 ≤ n.gold) :
    (player_attack_execute wname tname d20 rolls s).1.player.gold =
      s.player.gold ∧
    (end_combat_victory s).player.gold =
      s.player.gold + (s.participants.map (victoryGoldOf s.npcs)).sum ∧
    (∀ w tgt a t hit dmg,
      findEquippedWeapon s.equipped_weapons wname = some w →
      playerFindTarget s.npcs tname s.participants = Except.ok (some tgt) →
      display_player_attack_interactive
        (if w.type = WeaponType.melee then
          calculate_ability_modifier s.player.strength
        else calculate_ability_modifier s.player.dexterity)
        tgt.ac w.damage_dice_count d20 rolls = (a, t, hit, dmg) →
      hit = true → 0 < dmg → max 0 (tgt.hp - (dmg : Int)) = 0 →
      (player_attack_execute wname tname d20 rolls s).1.player.xp =
        s.player.xp + tgt.xp ∧
      (player_attack_execute wname tname d20 rolls s).1.player.level =
        get_level_from_xp (s.player.xp + tgt.xp)) := by
  refine ⟨?_, ?_, ?_⟩
  · unfold player_attack_execute
    cases hfw : findEquippedWeapon s.equipped_weapons wname with
    | none => rfl
    | some w =>
      dsimp only
      cases hft : playerFindTarget s.npcs tname s.participants with
      | error e => rfl
      | ok o =>
        cases o with
        | none => rfl
        | some tgt =>
          dsimp only
          unfold playerAttackApply
          repeat' (first | split | dsimp only)
  · unfold end_combat_victory
    dsimp only
    rw [foldl_add_map_sum (victoryGoldOf s.npcs) s.participants 0, zero_add]
    split
    · rfl
    · rename_i hng
      have h0 : (s.participants.map (victoryGoldOf s.npcs)).sum = 0 := by
        have hnn : 0 ≤ (s.participants.map (victoryGoldOf s.npcs)).sum :=
          List.sum_nonneg (by
            intro x hx
            rcases List.mem_map.mp hx with ⟨p, _, rfl⟩
            exact victoryGoldOf_nonneg hgold p)
        omega
      rw [h0, add_zero]
  · intro w tgt a t hit dmg hfw hft hdisp hh hd hkill
    subst hh
    unfold player_attack_execute
    rw [hfw]
    dsimp only
    rw [hft]
    dsimp only
    rw [hdisp]
    dsimp only
    unfold playerAttackApply
    rw [if_pos ⟨rfl, hd⟩]
    dsimp only
    rw [if_pos hkill]
    exact ⟨rfl, rfl⟩

/-- Witness for C6 at a concrete battle: the player's killing blow leaves
gold untouched and awards the goblin's 10 XP immediately; the victory
handler then credits the defeated goblin's 7 gold once. -/
theorem gold_credited_once_at_victory_witness :
    (player_attack_execute "sword" "goblin" 20 (fun _ => 3)
      { player := { id := 1, name := "hero", hp := 10, max_hp := 10, xp := 0, gold := 0, level := 1, strength := 14, dexterity := 12, constitution := 10, intelligence := 10, wisdom := 10, charisma := 10 },
        npcs := [{ id := 1, name := "goblin", hp := 5, max_hp := 5, ac := 10, disposition := Disposition.hostile, attack_mod := 2, initiative_mod := 1, damage_dice_count := 1, damage_dice_sides := "d6", xp := 10, gold := 7 }],
        participants := [{ battle_id := 1, npc_id := none, player_id := some 1, turn_order := some 1, is_active := true, initiative_roll := some 12 }, { battle_id := 1, npc_id := some 1, player_id := none, turn_order := some 2, is_active := true, initiative_roll := some 8 }],
        battle_id := 1,
        equipped_weapons := [{ id := 1, name := "sword", type := WeaponType.melee, hands_required := HandsRequired.one_handed, damage_dice_count := 1, damage_dice_sides := "d8" }],
        equipped_armor := [],
        pending_level_up := false }).1.player.gold = 0 ∧
    (player_attack_execute "sword" "goblin" 20 (fun _ => 3)
      { player := { id := 1, name := "hero", hp := 10, max_hp := 10, xp := 0, gold := 0, level := 1, strength := 14, dexterity := 12, constitution := 10, intelligence := 10, wisdom := 10, charisma := 10 },
        npcs := [{ id := 1, name := "goblin", hp := 5, max_hp := 5, ac := 10, disposition := Disposition.hostile, attack_mod := 2, initiative_mod := 1, damage_dice_count := 1, damage_dice_sides := "d6", xp := 10, gold := 7 }],
        participants := [{ battle_id := 1, npc_id := none, player_id := some 1, turn_order := some 1, is_active := true, initiative_roll := some 12 }, { battle_id := 1, npc_id := some 1, player_id := none, turn_order := some 2, is_active := true, initiative_roll := some 8 }],
        battle_id := 1,
        equipped_weapons := [{ id := 1, name := "sword", type := WeaponType.melee, hands_required := HandsRequired.one_handed, damage_dice_count := 1, damage_dice_sides := "d8" }],
        equipped_armor := [],
        pending_level_up := false }).1.player.xp = 10 ∧
    (end_combat_victory
      { player := { id := 1, name := "hero", hp := 4, max_hp := 10, xp := 10, gold := 0, level := 1, strength := 14, dexterity := 12, constitution := 10, intelligence := 10, wisdom := 10, charisma := 10 },
        npcs := [{ id := 1, name := "goblin", hp := 0, max_hp := 5, ac := 10, disposition := Disposition.hostile, attack_mod := 2, initiative_mod := 1, damage_dice_count := 1, damage_dice_sides := "d6", xp := 10, gold := 7 }],
        participants := [{ battle_id := 1, npc_id := none, player_id := some 1, turn_order := some 1, is_active := true, initiative_roll := some 12 }, { battle_id := 1, npc_id := some 1, player_id := none, turn_order := some 2, is_active := false, initiative_roll := some 8 }],
        battle_id := 1,
        equipped_weapons := [{ id := 1, name := "sword", type := WeaponType.melee, hands_required := HandsRequired.one_handed, damage_dice_count := 1, damage_dice_sides := "d8" }],
        equipped_armor := [],
        pending_level_up := false }).player.gold = 7 := by
  have h := gold_credited_once_at_victory
    { player := { id := 1, name := "hero", hp := 10, max_hp := 10, xp := 0, gold := 0, level := 1, strength := 14, dexterity := 12, constitution := 10, intelligence := 10, wisdom := 10, charisma := 10 },
      npcs := [{ id := 1, name := "goblin", hp := 5, max_hp := 5, ac := 10, disposition := Disposition.hostile, attack_mod := 2, initiative_mod := 1, damage_dice_count := 1, damage_dice_sides := "d6", xp := 10, gold := 7 }],
      participants := [{ battle_id := 1, npc_id := none, player_id := some 1, turn_order := some 1, is_active := true, initiative_roll := some 12 }, { battle_id := 1, npc_id := some 1, player_id := none, turn_order := some 2, is_active := true, initiative_roll := some 8 }],
      battle_id := 1,
      equipped_weapons := [{ id := 1, name := "sword", type := WeaponType.melee, hands_required := HandsRequired.one_handed, damage_dice_count := 1, damage_dice_sides := "d8" }],
      equipped_armor := [],
      pending_level_up := false } "sword" "goblin" 20 (fun _ => 3) (by decide)
  have hv := gold_credited_once_at_victory
    { player := { id := 1, name := "hero", hp := 4, max_hp := 10, xp := 10, gold := 0, level := 1, strength := 14, dexterity := 12, constitution := 10, intelligence := 10, wisdom := 10, charisma := 10 },
      npcs := [{ id := 1, name := "goblin", hp := 0, max_hp := 5, ac := 10, disposition := Disposition.hostile, attack_mod := 2, initiative_mod := 1, damage_dice_count := 1, damage_dice_sides := "d6", xp := 10, gold := 7 }],
      participants := [{ battle_id := 1, npc_id := none, player_id := some 1, turn_order := some 1, is_active := true, initiative_roll := some 12 }, { battle_id := 1, npc_id := some 1, player_id := none, turn_order := some 2, is_active := false, initiative_roll := some 8 }],
      battle_id := 1,
      equipped_weapons := [{ id := 1, name := "sword", type := WeaponType.melee, hands_required := HandsRequired.one_handed, damage_dice_count := 1, damage_dice_sides := "d8" }],
      equipped_armor := [],
      pending_level_up := false } "sword" "goblin" 20 (fun _ => 3) (by decide)
  refine ⟨h.1.trans (by decide), ?_, hv.2.1.trans (by decide)⟩
  have hx := (h.2.2
    { id := 1, name := "sword", type := WeaponType.melee, hands_required := HandsRequired.one_handed, damage_dice_count := 1, damage_dice_sides := "d8" }
    { id := 1, name := "goblin", hp := 5, max_hp := 5, ac := 10, disposition := Disposition.hostile, attack_mod := 2, initiative_mod := 1, damage_dice_count := 1, damage_dice_sides := "d6", xp := 10, gold := 7 }
    20 22 true 6 rfl rfl (by decide) rfl (by decide) (by decide))
  exact hx.1.trans (by decide)

/-! ## Claim C7 — target validation before attack resolution. -/

/-- Claim C7 (amended): the player attack validates its inputs against the
current state — an unequipped weapon, a target not found among the active
NPC participants, or a matching non-hostile target is rejected with an
error message and the state is returned unchanged, and a returned target
is always an active hostile participant NPC whose name matches — while the
NPC attack only validates existence: a missing attacker or a target name
matching neither the player nor any NPC participant row is rejected with
an unchanged state, but the participant search ignores both `is_active`
and disposition (see the accompanying counterexample). -/
theorem attack_target_validation (s : CombatState) (aid : Nat)
    (wname tname : String) (d20 : Int) (rolls : Nat → Nat) :
    (findEquippedWeapon s.equipped_weapons wname = none →
      (player_attack_execute wname tname d20 rolls s).1 = s) ∧
    (playerFindTarget s.npcs tname s.participants = Except.ok none →
      (player_attack_execute wname tname d20 rolls s).1 = s) ∧
    (∀ w e, findEquippedWeapon s.equipped_weapons wname = some w →
      playerFindTarget s.npcs tname s.participants = Except.error e →
      player_attack_execute wname tname d20 rolls s = (s, e)) ∧
    (∀ npc, playerFindTarget s.npcs tname s.participants = Except.ok (some npc) →
      npc ∈ s.npcs ∧ npc.disposition = Disposition.hostile ∧
        ∃ p, p ∈ s.participants ∧ p.is_active = true ∧ p.npc_id = some npc.id ∧
          pyLower npc.name = pyLower tname) ∧
    (npcGetById s.npcs aid = none →
      (npc_attack_execute aid tname d20 rolls s).1 = s) ∧
    ((pyLower tname == pyLower s.player.name) = false →
      npcAttackFindTarget s.npcs tname s.participants = none →
      (npc_attack_execute aid tname d20 rolls s).1 = s) ∧
    (∀ npc, npcAttackFindTarget s.npcs tname s.participants = some npc →
      npc ∈ s.npcs ∧ pyLower npc.name = pyLower tname) := by
  refine ⟨?_, ?_, ?_, ?_, ?_, ?_, ?_⟩
  · intro h
    unfold player_attack_execute
    rw [h]
  · intro h
    unfold player_attack_execute
    cases hfw : findEquippedWeapon s.equipped_weapons wname with
    | none => rfl
    | some w =>
      dsimp only
      rw [h]
  · intro w e hfw h
    unfold player_attack_execute
    rw [hfw]
    dsimp only
    rw [h]
  · intro npc h
    exact playerFindTarget_sound h
  · intro h
    unfold npc_attack_execute
    rw [h]
  · intro hname hfind
    unfold npc_attack_execute
    cases hatt : npcGetById s.npcs aid with
    | none => rfl
    | some att =>
      dsimp only
      rw [hname]
      rw [if_neg (by simp)]
      rw [hfind]
  · intro npc h
    exact npcAttackFindTarget_sound h

/-- Witness for the amended C7 at a concrete input: attacking with the
unequipped weapon "axe" is rejected and leaves the combat state unchanged. -/
theorem attack_target_validation_witness :
    (player_attack_execute "axe" "goblin" 20 (fun _ => 3)
      { player := { id := 1, name := "hero", hp := 10, max_hp := 10, xp := 0, gold := 0, level := 1, strength := 14, dexterity := 12, constitution := 10, intelligence := 10, wisdom := 10, charisma := 10 },
        npcs := [{ id := 1, name := "goblin", hp := 5, max_hp := 5, ac := 10, disposition := Disposition.hostile, attack_mod := 2, initiative_mod := 1, damage_dice_count := 1, damage_dice_sides := "d6", xp := 10, gold := 7 }],
        participants := [{ battle_id := 1, npc_id := none, player_id := some 1, turn_order := some 1, is_active := true, initiative_roll := some 12 }, { battle_id := 1, npc_id := some 1, player_id := none, turn_order := some 2, is_active := true, initiative_roll := some 8 }],
        battle_id := 1,
        equipped_weapons := [{ id := 1, name := "sword", type := WeaponType.melee, hands_required := HandsRequired.one_handed, damage_dice_count := 1, damage_dice_sides := "d8" }],
        equipped_armor := [],
        pending_level_up := false }).1 =
      { player := { id := 1, name := "hero", hp := 10, max_hp := 10, xp := 0, gold := 0, level := 1, strength := 14, dexterity := 12, constitution := 10, intelligence := 10, wisdom := 10, charisma := 10 },
        npcs := [{ id := 1, name := "goblin", hp := 5, max_hp := 5, ac := 10, disposition := Disposition.hostile, attack_mod := 2, initiative_mod := 1, damage_dice_count := 1, damage_dice_sides := "d6", xp := 10, gold := 7 }],
        participants := [{ battle_id := 1, npc_id := none, player_id := some 1, turn_order := some 1, is_active := true, initiative_roll := some 12 }, { battle_id := 1, npc_id := some 1, player_id := none, turn_order := some 2, is_active := true, initiative_roll := some 8 }],
        battle_id := 1,
        equipped_weapons := [{ id := 1, name := "sword", type := WeaponType.melee, hands_required := HandsRequired.one_handed, damage_dice_count := 1, damage_dice_sides := "d8" }],
        equipped_armor := [],
        pending_level_up := false } :=
  (attack_target_validation
    { player := { id := 1, name := "hero", hp := 10, max_hp := 10, xp := 0, gold := 0, level := 1, strength := 14, dexterity := 12, constitution := 10, intelligence := 10, wisdom := 10, charisma := 10 },
      npcs := [{ id := 1, name := "goblin", hp := 5, max_hp := 5, ac := 10, disposition := Disposition.hostile, attack_mod := 2, initiative_mod := 1, damage_dice_count := 1, damage_dice_sides := "d6", xp := 10, gold := 7 }],
      participants := [{ battle_id := 1, npc_id := none, player_id := some 1, turn_order := some 1, is_active := true, initiative_roll := some 12 }, { battle_id := 1, npc_id := some 1, player_id := none, turn_order := some 2, is_active := true, initiative_roll := some 8 }],
      battle_id := 1,
      equipped_weapons := [{ id := 1, name := "sword", type := WeaponType.melee, hands_required := HandsRequired.one_handed, damage_dice_count := 1, damage_dice_sides := "d8" }],
      equipped_armor := [],
      pending_level_up := false } 1 "axe" "goblin" 20 (fun _ => 3)).1 rfl

/-- Counterexample to C7 as stated: a hostile goblin attacking the hostile
bandit — a wrong-disposition target that the claim says must be rejected
with an error and no state change — is resolved normally by
`npc_attack_execute`: the target search checks neither `is_active` nor
disposition, the critical hit lands, and the bandit's HP drops from 10
to 4. -/
theorem npc_attack_ignores_target_disposition :
    (npc_attack_execute 1 "bandit" 20 (fun _ => 3)
      { player := { id := 1, name := "hero", hp := 10, max_hp := 10, xp := 0, gold := 0, level := 1, strength := 14, dexterity := 12, constitution := 10, intelligence := 10, wisdom := 10, charisma := 10 },
        npcs := [{ id := 1, name := "goblin", hp := 7, max_hp := 7, ac := 10, disposition := Disposition.hostile, attack_mod := 2, initiative_mod := 1, damage_dice_count := 1, damage_dice_sides := "d6", xp := 10, gold := 7 }, { id := 2, name := "bandit", hp := 10, max_hp := 10, ac := 10, disposition := Disposition.hostile, attack_mod := 2, initiative_mod := 1, damage_dice_count := 1, damage_dice_sides := "d6", xp := 12, gold := 9 }],
        participants := [{ battle_id := 1, npc_id := none, player_id := some 1, turn_order := some 1, is_active := true, initiative_roll := some 12 }, { battle_id := 1, npc_id := some 1, player_id := none, turn_order := some 2, is_active := true, initiative_roll := some 8 }, { battle_id := 1, npc_id := some 2, player_id := none, turn_order := some 3, is_active := true, initiative_roll := some 5 }],
        battle_id := 1,
        equipped_weapons := [{ id := 1, name := "sword", type := WeaponType.melee, hands_required := HandsRequired.one_handed, damage_dice_count := 1, damage_dice_sides := "d8" }],
        equipped_armor := [],
        pending_level_up := false }).1 ≠
      { player := { id := 1, name := "hero", hp := 10, max_hp := 10, xp := 0, gold := 0, level := 1, strength := 14, dexterity := 12, constitution := 10, intelligence := 10, wisdom := 10, charisma := 10 },
        npcs := [{ id := 1, name := "goblin", hp := 7, max_hp := 7, ac := 10, disposition := Disposition.hostile, attack_mod := 2, initiative_mod := 1, damage_dice_count := 1, damage_dice_sides := "d6", xp := 10, gold := 7 }, { id := 2, name := "bandit", hp := 10, max_hp := 10, ac := 10, disposition := Disposition.hostile, attack_mod := 2, initiative_mod := 1, damage_dice_count := 1, damage_dice_sides := "d6", xp := 12, gold := 9 }],
        participants := [{ battle_id := 1, npc_id := none, player_id := some 1, turn_order := some 1, is_active := true, initiative_roll := some 12 }, { battle_id := 1, npc_id := some 1, player_id := none, turn_order := some 2, is_active := true, initiative_roll := some 8 }, { battle_id := 1, npc_id := some 2, player_id := none, turn_order := some 3, is_active := true, initiative_roll := some 5 }],
        battle_id := 1,
        equipped_weapons := [{ id := 1, name := "sword", type := WeaponType.melee, hands_required := HandsRequired.one_handed, damage_dice_count := 1, damage_dice_sides := "d8" }],
        equipped_armor := [],
        pending_level_up := false } ∧
    npcGetById (npc_attack_execute 1 "bandit" 20 (fun _ => 3)
      { player := { id := 1, name := "hero", hp := 10, max_hp := 10, xp := 0, gold := 0, level := 1, strength := 14, dexterity := 12, constitution := 10, intelligence := 10, wisdom := 10, charisma := 10 },
        npcs := [{ id := 1, name := "goblin", hp := 7, max_hp := 7, ac := 10, disposition := Disposition.hostile, attack_mod := 2, initiative_mod := 1, damage_dice_count := 1, damage_dice_sides := "d6", xp := 10, gold := 7 }, { id := 2, name := "bandit", hp := 10, max_hp := 10, ac := 10, disposition := Disposition.hostile, attack_mod := 2, initiative_mod := 1, damage_dice_count := 1, damage_dice_sides := "d6", xp := 12, gold := 9 }],
        participants := [{ battle_id := 1, npc_id := none, player_id := some 1, turn_order := some 1, is_active := true, initiative_roll := some 12 }, { battle_id := 1, npc_id := some 1, player_id := none, turn_order := some 2, is_active := true, initiative_roll := some 8 }, { battle_id := 1, npc_id := some 2, player_id := none, turn_order := some 3, is_active := true, initiative_roll := some 5 }],
        battle_id := 1,
        equipped_weapons := [{ id := 1, name := "sword", type := WeaponType.melee, hands_required := HandsRequired.one_handed, damage_dice_count := 1, damage_dice_sides := "d8" }],
        equipped_armor := [],
        pending_level_up := false }).1.npcs 2 =
      some { id := 2, name := "bandit", hp := 4, max_hp := 10, ac := 10, disposition := Disposition.hostile, attack_mod := 2, initiative_mod := 1, damage_dice_count := 1, damage_dice_sides := "d6", xp := 12, gold := 9 } :=
  ⟨by decide, by decide⟩

/-! ## Claim C10 — the player's attack bonus is derived from abilities. -/

/-- Claim C10: a resolved player attack uses, as its attack bonus against
the target's AC, the ability modifier of the player's strength when the
chosen weapon is melee and of the player's dexterity when it is ranged —
the attack hits exactly when the d20 shows 20 or d20 + thatModifier ≥ AC.
The Playerm row stores no attack-bonus field; the bonus exists only as
this derived quantity. -/
theorem player_attack_bonus_from_ability (s : CombatState)
    (wname tname : String) (d20 : Int) (rolls : Nat → Nat) :
    ∀ w tgt, findEquippedWeapon s.equipped_weapons wname = some w →
      playerFindTarget s.npcs tname s.participants = Except.ok (some tgt) →
      (w.type = WeaponType.melee →
        (display_player_attack_interactive
            (calculate_ability_modifier s.player.strength) tgt.ac
            w.damage_dice_count d20 rolls).2.2.1 =
          ((d20 == 20) ||
            decide (d20 + calculate_ability_modifier s.player.strength ≥ tgt.ac)) ∧
        player_attack_execute wname tname d20 rolls s =
          playerAttackApply tgt
            (display_player_attack_interactive
              (calculate_ability_modifier s.player.strength) tgt.ac
              w.damage_dice_count d20 rolls).2.2.1
            (display_player_attack_interactive
              (calculate_ability_modifier s.player.strength) tgt.ac
              w.damage_dice_count d20 rolls).2.2.2 s) ∧
      (w.type = WeaponType.ranged →
        (display_player_attack_interactive
            (calculate_ability_modifier s.player.dexterity) tgt.ac
            w.damage_dice_count d20 rolls).2.2.1 =
          ((d20 == 20) ||
            decide (d20 + calculate_ability_modifier s.player.dexterity ≥ tgt.ac)) ∧
        player_attack_execute wname tname d20 rolls s =
          playerAttackApply tgt
            (display_player_attack_interactive
              (calculate_ability_modifier s.player.dexterity) tgt.ac
              w.damage_dice_count d20 rolls).2.2.1
            (display_player_attack_interactive
              (calculate_ability_modifier s.player.dexterity) tgt.ac
              w.damage_dice_count d20 rolls).2.2.2 s) := by
  intro w tgt hfw hft
  constructor
  · intro htype
    refine ⟨rfl, ?_⟩
    unfold player_attack_execute
    rw [hfw]
    dsimp only
    rw [hft]
    dsimp only
    rw [htype, if_pos rfl]
  · intro htype
    refine ⟨rfl, ?_⟩
    unfold player_attack_execute
    rw [hfw]
    dsimp only
    rw [hft]
    dsimp only
    rw [htype, if_neg (by simp)]

/-- Witness for C10 at a concrete input: strength 14 (modifier +2) with a
melee weapon against AC 10 and a d20 of 9 — the hit condition is exactly
9 = 20 or 9 + 2 ≥ 10, which holds, so the attack hits. -/
theorem player_attack_bonus_from_ability_witness :
    (display_player_attack_interactive (calculate_ability_modifier 14) 10 1 9
        (fun _ => 3)).2.2.1 =
      ((9 == 20) || decide ((9 : Int) + calculate_ability_modifier 14 ≥ 10)) ∧
    (display_player_attack_interactive (calculate_ability_modifier 14) 10 1 9
        (fun _ => 3)).2.2.1 = true :=
  ⟨((player_attack_bonus_from_ability
      { player := { id := 1, name := "hero", hp := 10, max_hp := 10, xp := 0, gold := 0, level := 1, strength := 14, dexterity := 12, constitution := 10, intelligence := 10, wisdom := 10, charisma := 10 },
        npcs := [{ id := 1, name := "goblin", hp := 5, max_hp := 5, ac := 10, disposition := Disposition.hostile, attack_mod := 2, initiative_mod := 1, damage_dice_count := 1, damage_dice_sides := "d6", xp := 10, gold := 7 }],
        participants := [{ battle_id := 1, npc_id := none, player_id := some 1, turn_order := some 1, is_active := true, initiative_roll := some 12 }, { battle_id := 1, npc_id := some 1, player_id := none, turn_order := some 2, is_active := true, initiative_roll := some 8 }],
        battle_id := 1,
        equipped_weapons := [{ id := 1, name := "sword", type := WeaponType.melee, hands_required := HandsRequired.one_handed, damage_dice_count := 1, damage_dice_sides := "d8" }],
        equipped_armor := [],
        pending_level_up := false } "sword" "goblin" 9 (fun _ => 3))
      { id := 1, name := "sword", type := WeaponType.melee, hands_required := HandsRequired.one_handed, damage_dice_count := 1, damage_dice_sides := "d8" }
      { id := 1, name := "goblin", hp := 5, max_hp := 5, ac := 10, disposition := Disposition.hostile, attack_mod := 2, initiative_mod := 1, damage_dice_count := 1, damage_dice_sides := "d6", xp := 10, gold := 7 }
      rfl rfl).1 rfl |>.1,
    by decide⟩

end TerminalRpg
